import Mathlib

/-!
# Verification of the dsa-flash study-session orchestrator

Shallow embedding of the client-side study-session state machine of
`frontend/composables/useStudySession.ts`, together with the analytics
buffer of `frontend/composables/useAnalytics.ts` and the logout action of
`frontend/composables/useAuth.ts`.

The Vue reactive state (`ref`s) becomes an explicit `SessionState` record;
each user-visible operation (flip, next, grade submission, keep-going,
finish, mode change, card-fetch resolution, timer expiry, unmount) becomes
a state-transition function.  The `watch(...)` callbacks of the source are
applied at the same points where Vue's reactivity would flush them: the
`watch(cards)` body runs whenever the card list is assigned, and the
`watch(card)` body runs whenever the derived current card changes.
The asynchronous `recordResponse` is split into its synchronous prefix
(guard, analytics event, POST issue) and three resolution transitions
(success, 401 failure, other failure), reflecting the `await` boundary.
Time is a `Nat` clock advanced by an explicit `tick` transition.  Each
`setTimeout` in `flipCard` arms a fresh timeout (an id/deadline pair in
`pendingTimers`) and stores only its handle in the `buttonsTimer`
variable; `clearTimeout(buttonsTimer)` cancels only that latest handle.
The source never cancels a previously armed timeout when arming a new
one, and `nextCard`/`keepGoing` reset `revealed` without any cancel, so
stale timeouts stay pending; a `timerFire id` transition fires a pending
timeout once the clock has passed its deadline, even after unmount.
-/

/-- Study mode, one of `due`, `new`, `all` (`useStudySession.ts`, `mode` ref). -/
inductive Mode where
  | due
  | new
  | all
deriving DecidableEq, Repr, Inhabited

/-- A flashcard as fetched from the backend: `{ id, front, back }`. -/
structure StudyCard where
  id : Nat
  front : String
  back : String
deriving DecidableEq, Repr, Inhabited

/-- Grades offered by the review buttons: `'again' | 'good' | 'easy'`. -/
inductive Grade where
  | again
  | good
  | easy
deriving DecidableEq, Repr, Inhabited

/-- Reasons passed to `finishSession` / `emitSessionEnd`. -/
inductive EndReason where
  | completed
  | userEnded
  | navigatedAway
deriving DecidableEq, Repr, Inhabited

/-- Analytics event types emitted through `track` by the session composable. -/
inductive EventType where
  | pageView
  | sessionStart
  | cardFlip
  | cardReview
  | keepGoingEvt
  | sessionEnd (reason : EndReason)
deriving DecidableEq, Repr, Inhabited

/-- The body of the review POST `POST /flashcards/{id}/review`:
`{ quality: qualityMap[grade] }` sent for a given card. -/
structure ReviewPost where
  cardId : Nat
  quality : Nat
deriving DecidableEq, Repr, Inhabited

/-- `const qualityMap = { easy: 5, good: 3, again: 1 }` -/
def qualityMap : Grade → Nat
  | .easy => 5
  | .good => 3
  | .again => 1

/-- `const BATCH_SIZE = 10` -/
def BATCH_SIZE : Nat := 10

/-- The whole reactive state of one `useStudySession` invocation, plus the
auth state it can mutate (`tokenCookie`, `user` from `useAuth`), the logs of
emitted analytics events and issued review POSTs, a `mounted` flag (false
after navigation/unmount removes the component and its listeners), the
pending in-flight review request, and a millisecond clock `now`.
`buttonsTimer` is the `let buttonsTimer` variable — the handle of the most
recently armed `setTimeout`, or null — while `pendingTimers` is the set of
armed, not-yet-fired, not-yet-cancelled timeouts as (handle, deadline)
pairs and `nextTimerId` the next fresh handle. -/
structure SessionState where
  cards : List StudyCard
  cardIndex : Nat
  cardsReviewedInBatch : Nat
  cardsReviewedInSession : Nat
  currentBatchSize : Nat
  sessionFinished : Bool
  revealed : Bool
  buttonsEnabled : Bool
  buttonsTimer : Option Nat
  pendingTimers : List (Nat × Nat)
  nextTimerId : Nat
  isSubmitting : Bool
  inFlight : Option Grade
  sessionEndEmitted : Bool
  mode : Mode
  user : Option String
  tokenCookie : Option String
  mounted : Bool
  events : List EventType
  posts : List ReviewPost
  now : Nat
  flipTime : Nat
  frontShownAt : Nat
deriving DecidableEq, Repr, Inhabited

/-- `isLoggedIn = computed(() => !!user.value)` (`useAuth.ts`). -/
def isLoggedIn (s : SessionState) : Bool := s.user.isSome

/-- The `card` computed: `null` once the session is finished, else
`cards[0]` for logged-in users (server-driven queue) or `cards[cardIndex]`
for anonymous users. -/
def card (s : SessionState) : Option StudyCard :=
  if s.sessionFinished then none
  else if isLoggedIn s then s.cards.head?
  else s.cards[s.cardIndex]?

/-- `remainingCards` computed: full list length for logged-in users,
`length - cardIndex` for anonymous browsing. -/
def remainingCards (s : SessionState) : Nat :=
  if isLoggedIn s then s.cards.length else s.cards.length - s.cardIndex

/-- `track(event, payload)`: append one analytics event to the event log. -/
def track (e : EventType) (s : SessionState) : SessionState :=
  { s with events := s.events ++ [e] }

/-- `emitSessionEnd(reason)`: emit a single `session_end` analytics event,
guarded by the module-local `sessionEndEmitted` flag. -/
def emitSessionEnd (r : EndReason) (s : SessionState) : SessionState :=
  if s.sessionEndEmitted then s
  else { s with sessionEndEmitted := true, events := s.events ++ [.sessionEnd r] }

/-- `clearTimeout(handle)`: cancel the pending timeout with the given
handle, if any — a no-op for a null handle or an already fired or
cancelled one.  Timeouts armed earlier whose handle was overwritten in
`buttonsTimer` are untouched. -/
def clearTimeout (handle : Option Nat) (timers : List (Nat × Nat)) :
    List (Nat × Nat) :=
  match handle with
  | none => timers
  | some id => timers.filter (fun e => e.1 != id)

/-- Effect of the component being unmounted (`onBeforeUnmount`): the
keydown/beforeunload listeners are removed (`mounted := false`), the
timeout referenced by `buttonsTimer` is cleared (`if (buttonsTimer)
clearTimeout(buttonsTimer)` — the variable itself is not nulled), and
`emitSessionEnd('navigated_away')` runs. -/
def unmountBody (s : SessionState) : SessionState :=
  emitSessionEnd .navigatedAway
    { s with pendingTimers := clearTimeout s.buttonsTimer s.pendingTimers,
             mounted := false }

/-- `finishSession(reason)`: emit the session-end event; if nothing was
reviewed this session, `navigateTo('/')` (which unmounts the component)
without setting `sessionFinished`; otherwise set `sessionFinished`. -/
def finishSession (r : EndReason) (s : SessionState) : SessionState :=
  let s1 := emitSessionEnd r s
  if s1.cardsReviewedInSession = 0 then unmountBody s1
  else { s1 with sessionFinished := true }

/-- Body of `watch(cards, ...)` (immediate): on a card-list assignment,
establish `currentBatchSize` if it is still 0 — the full list length in
`due` mode, `min(BATCH_SIZE, length)` otherwise. -/
def watchCardsBody (s : SessionState) : SessionState :=
  if s.currentBatchSize = 0 then
    if s.mode = Mode.due then { s with currentBatchSize := s.cards.length }
    else { s with currentBatchSize := min BATCH_SIZE s.cards.length }
  else s

/-- Body of `watch(card, ...)`: when the derived current card changes,
logged-in sessions reset the reveal state and cancel the buttons timer;
and if the new card is `null` while the session is not finished,
`finishSession('completed')` runs. -/
def watchCardBody (newCard : Option StudyCard) (s : SessionState) : SessionState :=
  let s1 :=
    if isLoggedIn s then
      { s with revealed := false, buttonsEnabled := false,
               pendingTimers := clearTimeout s.buttonsTimer s.pendingTimers,
               buttonsTimer := none, frontShownAt := s.now }
    else s
  if newCard = none ∧ s1.sessionFinished = false then finishSession .completed s1
  else s1

/-- Run the `watch(card)` callback if the derived card changed between
`pre` and `post` and the component is still mounted (Vue stops watchers on
unmount). -/
def applyCardWatch (pre post : SessionState) : SessionState :=
  if post.mounted = true ∧ card post ≠ card pre then watchCardBody (card post) post
  else post

/-- `flipCard()`: toggle `revealed`; on reveal, record the flip time, emit
a `card_flip` event, disable the buttons and arm a fresh 400 ms timeout,
overwriting the `buttonsTimer` variable with its handle — the source does
not cancel a previously pending timeout here, so one orphaned by
`nextCard`/`keepGoing` stays armed; on flip back to the front, disable the
buttons and cancel the timeout referenced by `buttonsTimer` (only the most
recently armed one). -/
def flipCard (s : SessionState) : SessionState :=
  let s1 := { s with revealed := !s.revealed }
  if s1.revealed then
    let s2 := track .cardFlip { s1 with flipTime := s1.now }
    { s2 with buttonsEnabled := false,
              buttonsTimer := some s2.nextTimerId,
              pendingTimers := s2.pendingTimers ++ [(s2.nextTimerId, s2.now + 400)],
              nextTimerId := s2.nextTimerId + 1 }
  else
    { s1 with buttonsEnabled := false,
              pendingTimers := clearTimeout s1.buttonsTimer s1.pendingTimers,
              buttonsTimer := none }

/-- The `setTimeout` callback of the timeout with the given handle:
`buttonsEnabled.value = true`.  The fired timeout is no longer pending;
the callback does not null the `buttonsTimer` variable. -/
def timerFireBody (id : Nat) (s : SessionState) : SessionState :=
  { s with buttonsEnabled := true,
           pendingTimers := s.pendingTimers.filter (fun e => e.1 != id) }

/-- `nextCard()` (anonymous path): bump both review counters and the local
index, reset the reveal, mark the session finished once the batch is
exhausted, and emit `session_end('completed')` if the list ran out. -/
def nextCard (s : SessionState) : SessionState :=
  let s1 := { s with
    cardsReviewedInSession := s.cardsReviewedInSession + 1,
    cardsReviewedInBatch := s.cardsReviewedInBatch + 1,
    cardIndex := s.cardIndex + 1,
    revealed := false,
    frontShownAt := s.now }
  let s2 :=
    if s1.currentBatchSize ≤ s1.cardsReviewedInBatch then
      { s1 with sessionFinished := true }
    else s1
  let s3 := if s2.cards[s2.cardIndex]? = none then emitSessionEnd .completed s2 else s2
  applyCardWatch s s3

/-- `keepGoing()`: track the event, reset the batch counter, clear
`sessionFinished`, and recompute `currentBatchSize` — full list length in
`due` mode, `min(BATCH_SIZE, length)` for logged-in users, and
`min(BATCH_SIZE, length - cardIndex)` for anonymous users. -/
def keepGoing (s : SessionState) : SessionState :=
  let s1 := track .keepGoingEvt s
  let s2 := { s1 with cardsReviewedInBatch := 0, sessionFinished := false }
  let s3 :=
    if s2.mode = Mode.due then { s2 with currentBatchSize := s2.cards.length }
    else if isLoggedIn s2 then { s2 with currentBatchSize := min BATCH_SIZE s2.cards.length }
    else { s2 with currentBatchSize := min BATCH_SIZE (s2.cards.length - s2.cardIndex) }
  let s4 := { s3 with revealed := false, frontShownAt := s3.now }
  applyCardWatch s s4

/-- The synchronous prefix of `recordResponse(grade)`: the
`if (!card.value || isSubmitting.value) return` guard, setting the
in-flight flag, the `card_review` analytics event, and issuing the review
POST with body `{ quality: qualityMap[grade] }`. -/
def recordResponse (grade : Grade) (s : SessionState) : SessionState :=
  match card s with
  | none => s
  | some c =>
    if s.isSubmitting then s
    else
      let s1 := track .cardReview { s with isSubmitting := true }
      { s1 with posts := s1.posts ++ [⟨c.id, qualityMap grade⟩], inFlight := some grade }

/-- Resolution of the review POST on success: bump both counters, mark the
session finished once the batch is exhausted, then `await refresh()`
replaces the card list (firing `watch(cards)` and `watch(card)` if the
component is still mounted), and the `finally` clause clears the in-flight
flag. -/
def submitResolveSuccess (newCards : List StudyCard) (s : SessionState) : SessionState :=
  let s1 := { s with
    cardsReviewedInSession := s.cardsReviewedInSession + 1,
    cardsReviewedInBatch := s.cardsReviewedInBatch + 1 }
  let s2 :=
    if s1.currentBatchSize ≤ s1.cardsReviewedInBatch then
      { s1 with sessionFinished := true }
    else s1
  let s3 := applyCardWatch s s2
  let s4 := { s3 with cards := newCards }
  let s5 := if s4.mounted then applyCardWatch s3 (watchCardsBody s4) else s4
  { s5 with isSubmitting := false, inFlight := none }

/-- `logout` from `useAuth.ts`: clear the token cookie and the in-memory
user profile (the trailing best-effort `POST /auth/logout` has no client
state effect). -/
def logout (s : SessionState) : SessionState :=
  { s with tokenCookie := none, user := none }

/-- Resolution of the review POST on a 401: `await logout()` then
`navigateTo('/')` — which unmounts the component — and the `finally`
clause clears the in-flight flag. -/
def submitResolveFail401 (s : SessionState) : SessionState :=
  let s1 := logout s
  let s2 := if s1.mounted then unmountBody s1 else s1
  { s2 with isSubmitting := false, inFlight := none }

/-- Resolution of the review POST on any non-401 failure: the error is
logged to the console and the `finally` clause clears the in-flight flag;
nothing else changes. -/
def submitResolveFailOther (s : SessionState) : SessionState :=
  { s with isSubmitting := false, inFlight := none }

/-- Body of `watch(mode, ...)`: reset the batch state and empty the card
list (which triggers the `watch(cards)` and `watch(card)` callbacks).
Assigning an equal mode does not trigger the watcher. -/
def modeChangeBody (m : Mode) (s : SessionState) : SessionState :=
  if m = s.mode then s
  else
    let s1 := { s with mode := m, cardsReviewedInBatch := 0, currentBatchSize := 0,
                       sessionFinished := false, cardIndex := 0, cards := [] }
    let s2 := watchCardsBody s1
    applyCardWatch s s2

/-- Resolution of a card fetch (the `useFetch` refetching after a URL
change): assign the list, firing `watch(cards)` and `watch(card)`. -/
def cardsArrive (newCards : List StudyCard) (s : SessionState) : SessionState :=
  let s1 := watchCardsBody { s with cards := newCards }
  applyCardWatch s s1

/-- The state right after `useStudySession` setup and `onMounted`: the
awaited initial fetch has populated `cards`, the immediate `watch(cards)`
has established the batch size, and `page_view` / `session_start` events
were tracked.  `watch(card)` is not immediate, so it has not run. -/
def initState (cards0 : List StudyCard) (mode0 : Mode) (user0 tok0 : Option String) :
    SessionState :=
  watchCardsBody {
    cards := cards0, cardIndex := 0, cardsReviewedInBatch := 0,
    cardsReviewedInSession := 0, currentBatchSize := 0, sessionFinished := false,
    revealed := false, buttonsEnabled := false, buttonsTimer := none,
    pendingTimers := [], nextTimerId := 0,
    isSubmitting := false, inFlight := none, sessionEndEmitted := false,
    mode := mode0, user := user0, tokenCookie := tok0, mounted := true,
    events := [.pageView, .sessionStart], posts := [], now := 0,
    flipTime := 0, frontShownAt := 0 }

/-- Labels of the orchestrator's transitions. -/
inductive Op where
  | tick (d : Nat)
  | timerFire (id : Nat)
  | flip
  | next
  | submitBegin (grade : Grade)
  | submitSuccess (newCards : List StudyCard)
  | submitFail401
  | submitFailOther
  | keepGoingOp
  | finishUser
  | modeChange (m : Mode)
  | cardsArriveOp (newCards : List StudyCard)
  | unmount
deriving DecidableEq, Repr, Inhabited

/-- One transition of the session, guarded the way each operation is
reachable in the app: `flip` by clicking the displayed card, `next` by the
anonymous next-button / keydown (only while a card is shown and revealed),
`submitBegin` by the rating buttons / keydown (logged-in, revealed,
buttons enabled), `keepGoingOp` from the completion screen while more
cards remain, `finishUser` from the back-navigation controls, resolutions
only while their request is in flight, and everything UI-driven only while
the component is mounted.  Returns `none` when the guard fails. -/
def step : Op → SessionState → Option SessionState
  | .tick d, s => some { s with now := s.now + d }
  | .timerFire id, s =>
    match s.pendingTimers.find? (fun e => e.1 == id) with
    | some e => if e.2 ≤ s.now then some (timerFireBody id s) else none
    | none => none
  | .flip, s =>
    if s.mounted = true ∧ (card s).isSome = true then some (flipCard s) else none
  | .next, s =>
    if s.mounted = true ∧ isLoggedIn s = false ∧ s.revealed = true ∧
        (card s).isSome = true then
      some (nextCard s)
    else none
  | .submitBegin g, s =>
    if s.mounted = true ∧ isLoggedIn s = true ∧ s.revealed = true ∧
        s.buttonsEnabled = true ∧ (card s).isSome = true then
      some (recordResponse g s)
    else none
  | .submitSuccess newCards, s =>
    if s.inFlight.isSome = true then some (submitResolveSuccess newCards s) else none
  | .submitFail401, s =>
    if s.inFlight.isSome = true then some (submitResolveFail401 s) else none
  | .submitFailOther, s =>
    if s.inFlight.isSome = true then some (submitResolveFailOther s) else none
  | .keepGoingOp, s =>
    if s.mounted = true ∧ (s.sessionFinished = true ∨ card s = none) ∧
        0 < remainingCards s then
      some (keepGoing s)
    else none
  | .finishUser, s =>
    if s.mounted = true then some (finishSession .userEnded s) else none
  | .modeChange m, s =>
    if s.mounted = true then some (modeChangeBody m s) else none
  | .cardsArriveOp newCards, s =>
    if s.mounted = true then some (cardsArrive newCards s) else none
  | .unmount, s =>
    if s.mounted = true then some (unmountBody s) else none

/-- Run a list of operations, failing if any guard fails. -/
def runOps : List Op → SessionState → Option SessionState
  | [], s => some s
  | op :: ops, s =>
    match step op s with
    | some s' => runOps ops s'
    | none => none

/-- States reachable from some initial session by any operation sequence. -/
inductive Reach : SessionState → Prop where
  | init (cards0 : List StudyCard) (mode0 : Mode) (user0 tok0 : Option String) :
      Reach (initState cards0 mode0 user0 tok0)
  | step (s : SessionState) (op : Op) (s' : SessionState) :
      Reach s → step op s = some s' → Reach s'

/-- States reachable when the mode is never changed while a grade
submission is in flight (as in the shipped category page, which only sets
the mode before the session starts). -/
inductive ReachSafe : SessionState → Prop where
  | init (cards0 : List StudyCard) (mode0 : Mode) (user0 tok0 : Option String) :
      ReachSafe (initState cards0 mode0 user0 tok0)
  | step (s : SessionState) (op : Op) (s' : SessionState) :
      ReachSafe s → step op s = some s' →
      (∀ m, op = Op.modeChange m → s.isSubmitting = false) → ReachSafe s'

/-! ## Projection lemmas for the helper bodies -/

/-- Does an analytics event record a `session_end`? -/
def isSE : EventType → Bool
  | .sessionEnd _ => true
  | _ => false

/-- Number of `session_end` events in an event log. -/
def countSE (es : List EventType) : Nat := es.countP isSE

@[simp] lemma countSE_append (es : List EventType) (e : EventType) :
    countSE (es ++ [e]) = countSE es + (if isSE e then 1 else 0) := by
  simp [countSE, List.countP_append, List.countP_cons]

@[simp] lemma isSE_sessionEnd (r : EndReason) : isSE (.sessionEnd r) = true := rfl

@[simp] lemma isSE_pageView : isSE .pageView = false := rfl

@[simp] lemma isSE_sessionStart : isSE .sessionStart = false := rfl

@[simp] lemma isSE_cardFlip : isSE .cardFlip = false := rfl

@[simp] lemma isSE_cardReview : isSE .cardReview = false := rfl

@[simp] lemma isSE_keepGoingEvt : isSE .keepGoingEvt = false := rfl

@[simp] lemma emitSessionEnd_emitted (r : EndReason) (s : SessionState) :
    (emitSessionEnd r s).sessionEndEmitted = true := by
  unfold emitSessionEnd; split <;> simp_all

@[simp] lemma emitSessionEnd_batch (r : EndReason) (s : SessionState) :
    (emitSessionEnd r s).cardsReviewedInBatch = s.cardsReviewedInBatch := by
  unfold emitSessionEnd; split <;> rfl

@[simp] lemma emitSessionEnd_batchSize (r : EndReason) (s : SessionState) :
    (emitSessionEnd r s).currentBatchSize = s.currentBatchSize := by
  unfold emitSessionEnd; split <;> rfl

@[simp] lemma emitSessionEnd_cards (r : EndReason) (s : SessionState) :
    (emitSessionEnd r s).cards = s.cards := by
  unfold emitSessionEnd; split <;> rfl

@[simp] lemma emitSessionEnd_cardIndex (r : EndReason) (s : SessionState) :
    (emitSessionEnd r s).cardIndex = s.cardIndex := by
  unfold emitSessionEnd; split <;> rfl

@[simp] lemma emitSessionEnd_session (r : EndReason) (s : SessionState) :
    (emitSessionEnd r s).cardsReviewedInSession = s.cardsReviewedInSession := by
  unfold emitSessionEnd; split <;> rfl

@[simp] lemma emitSessionEnd_isSubmitting (r : EndReason) (s : SessionState) :
    (emitSessionEnd r s).isSubmitting = s.isSubmitting := by
  unfold emitSessionEnd; split <;> rfl

@[simp] lemma emitSessionEnd_inFlight (r : EndReason) (s : SessionState) :
    (emitSessionEnd r s).inFlight = s.inFlight := by
  unfold emitSessionEnd; split <;> rfl

@[simp] lemma emitSessionEnd_user (r : EndReason) (s : SessionState) :
    (emitSessionEnd r s).user = s.user := by
  unfold emitSessionEnd; split <;> rfl

@[simp] lemma emitSessionEnd_tokenCookie (r : EndReason) (s : SessionState) :
    (emitSessionEnd r s).tokenCookie = s.tokenCookie := by
  unfold emitSessionEnd; split <;> rfl

@[simp] lemma emitSessionEnd_mode (r : EndReason) (s : SessionState) :
    (emitSessionEnd r s).mode = s.mode := by
  unfold emitSessionEnd; split <;> rfl

@[simp] lemma emitSessionEnd_finished (r : EndReason) (s : SessionState) :
    (emitSessionEnd r s).sessionFinished = s.sessionFinished := by
  unfold emitSessionEnd; split <;> rfl

@[simp] lemma emitSessionEnd_mounted (r : EndReason) (s : SessionState) :
    (emitSessionEnd r s).mounted = s.mounted := by
  unfold emitSessionEnd; split <;> rfl

@[simp] lemma emitSessionEnd_buttonsTimer (r : EndReason) (s : SessionState) :
    (emitSessionEnd r s).buttonsTimer = s.buttonsTimer := by
  unfold emitSessionEnd; split <;> rfl

@[simp] lemma emitSessionEnd_buttonsEnabled (r : EndReason) (s : SessionState) :
    (emitSessionEnd r s).buttonsEnabled = s.buttonsEnabled := by
  unfold emitSessionEnd; split <;> rfl

@[simp] lemma emitSessionEnd_now (r : EndReason) (s : SessionState) :
    (emitSessionEnd r s).now = s.now := by
  unfold emitSessionEnd; split <;> rfl

@[simp] lemma emitSessionEnd_flipTime (r : EndReason) (s : SessionState) :
    (emitSessionEnd r s).flipTime = s.flipTime := by
  unfold emitSessionEnd; split <;> rfl

@[simp] lemma emitSessionEnd_posts (r : EndReason) (s : SessionState) :
    (emitSessionEnd r s).posts = s.posts := by
  unfold emitSessionEnd; split <;> rfl

lemma emitSessionEnd_countSE (r : EndReason) (s : SessionState)
    (h : countSE s.events = (if s.sessionEndEmitted then 1 else 0)) :
    countSE (emitSessionEnd r s).events = 1 := by
  unfold emitSessionEnd; split <;> simp_all

@[simp] lemma track_events (e : EventType) (s : SessionState) :
    (track e s).events = s.events ++ [e] := rfl

@[simp] lemma unmountBody_batch (s : SessionState) :
    (unmountBody s).cardsReviewedInBatch = s.cardsReviewedInBatch := by
  simp [unmountBody]

@[simp] lemma unmountBody_batchSize (s : SessionState) :
    (unmountBody s).currentBatchSize = s.currentBatchSize := by
  simp [unmountBody]

@[simp] lemma unmountBody_cards (s : SessionState) :
    (unmountBody s).cards = s.cards := by
  simp [unmountBody]

@[simp] lemma unmountBody_cardIndex (s : SessionState) :
    (unmountBody s).cardIndex = s.cardIndex := by
  simp [unmountBody]

@[simp] lemma unmountBody_session (s : SessionState) :
    (unmountBody s).cardsReviewedInSession = s.cardsReviewedInSession := by
  simp [unmountBody]

@[simp] lemma unmountBody_isSubmitting (s : SessionState) :
    (unmountBody s).isSubmitting = s.isSubmitting := by
  simp [unmountBody]

@[simp] lemma unmountBody_inFlight (s : SessionState) :
    (unmountBody s).inFlight = s.inFlight := by
  simp [unmountBody]

@[simp] lemma unmountBody_user (s : SessionState) :
    (unmountBody s).user = s.user := by
  simp [unmountBody]

@[simp] lemma unmountBody_tokenCookie (s : SessionState) :
    (unmountBody s).tokenCookie = s.tokenCookie := by
  simp [unmountBody]

@[simp] lemma unmountBody_mode (s : SessionState) :
    (unmountBody s).mode = s.mode := by
  simp [unmountBody]

@[simp] lemma unmountBody_finished (s : SessionState) :
    (unmountBody s).sessionFinished = s.sessionFinished := by
  simp [unmountBody]

@[simp] lemma unmountBody_mounted (s : SessionState) :
    (unmountBody s).mounted = false := by
  simp [unmountBody]

@[simp] lemma unmountBody_buttonsTimer (s : SessionState) :
    (unmountBody s).buttonsTimer = s.buttonsTimer := by
  simp [unmountBody]

@[simp] lemma unmountBody_buttonsEnabled (s : SessionState) :
    (unmountBody s).buttonsEnabled = s.buttonsEnabled := by
  simp [unmountBody]

@[simp] lemma unmountBody_now (s : SessionState) :
    (unmountBody s).now = s.now := by
  simp [unmountBody]

@[simp] lemma unmountBody_flipTime (s : SessionState) :
    (unmountBody s).flipTime = s.flipTime := by
  simp [unmountBody]

@[simp] lemma unmountBody_posts (s : SessionState) :
    (unmountBody s).posts = s.posts := by
  simp [unmountBody]

@[simp] lemma unmountBody_emitted (s : SessionState) :
    (unmountBody s).sessionEndEmitted = true := by
  simp [unmountBody]

@[simp] lemma finishSession_batch (r : EndReason) (s : SessionState) :
    (finishSession r s).cardsReviewedInBatch = s.cardsReviewedInBatch := by
  unfold finishSession; dsimp only; split <;> simp

@[simp] lemma finishSession_batchSize (r : EndReason) (s : SessionState) :
    (finishSession r s).currentBatchSize = s.currentBatchSize := by
  unfold finishSession; dsimp only; split <;> simp

@[simp] lemma finishSession_cards (r : EndReason) (s : SessionState) :
    (finishSession r s).cards = s.cards := by
  unfold finishSession; dsimp only; split <;> simp

@[simp] lemma finishSession_cardIndex (r : EndReason) (s : SessionState) :
    (finishSession r s).cardIndex = s.cardIndex := by
  unfold finishSession; dsimp only; split <;> simp

@[simp] lemma finishSession_session (r : EndReason) (s : SessionState) :
    (finishSession r s).cardsReviewedInSession = s.cardsReviewedInSession := by
  unfold finishSession; dsimp only; split <;> simp

@[simp] lemma finishSession_isSubmitting (r : EndReason) (s : SessionState) :
    (finishSession r s).isSubmitting = s.isSubmitting := by
  unfold finishSession; dsimp only; split <;> simp

@[simp] lemma finishSession_inFlight (r : EndReason) (s : SessionState) :
    (finishSession r s).inFlight = s.inFlight := by
  unfold finishSession; dsimp only; split <;> simp

@[simp] lemma finishSession_user (r : EndReason) (s : SessionState) :
    (finishSession r s).user = s.user := by
  unfold finishSession; dsimp only; split <;> simp

@[simp] lemma finishSession_tokenCookie (r : EndReason) (s : SessionState) :
    (finishSession r s).tokenCookie = s.tokenCookie := by
  unfold finishSession; dsimp only; split <;> simp

@[simp] lemma finishSession_mode (r : EndReason) (s : SessionState) :
    (finishSession r s).mode = s.mode := by
  unfold finishSession; dsimp only; split <;> simp

@[simp] lemma finishSession_buttonsEnabled (r : EndReason) (s : SessionState) :
    (finishSession r s).buttonsEnabled = s.buttonsEnabled := by
  unfold finishSession; dsimp only; split <;> simp

@[simp] lemma finishSession_now (r : EndReason) (s : SessionState) :
    (finishSession r s).now = s.now := by
  unfold finishSession; dsimp only; split <;> simp

@[simp] lemma finishSession_flipTime (r : EndReason) (s : SessionState) :
    (finishSession r s).flipTime = s.flipTime := by
  unfold finishSession; dsimp only; split <;> simp

@[simp] lemma finishSession_posts (r : EndReason) (s : SessionState) :
    (finishSession r s).posts = s.posts := by
  unfold finishSession; dsimp only; split <;> simp

@[simp] lemma finishSession_emitted (r : EndReason) (s : SessionState) :
    (finishSession r s).sessionEndEmitted = true := by
  unfold finishSession; dsimp only; split <;> simp

lemma finishSession_finished (r : EndReason) (s : SessionState) :
    (finishSession r s).sessionFinished =
      (if s.cardsReviewedInSession = 0 then s.sessionFinished else true) := by
  unfold finishSession; dsimp only; simp only [emitSessionEnd_session]
  split <;> simp

lemma finishSession_finished_mono (r : EndReason) (s : SessionState)
    (h : s.sessionFinished = true) : (finishSession r s).sessionFinished = true := by
  rw [finishSession_finished]; split <;> simp_all

@[simp] lemma watchCardBody_batch (nc : Option StudyCard) (s : SessionState) :
    (watchCardBody nc s).cardsReviewedInBatch = s.cardsReviewedInBatch := by
  unfold watchCardBody; dsimp only; split <;> split <;> simp_all

@[simp] lemma watchCardBody_batchSize (nc : Option StudyCard) (s : SessionState) :
    (watchCardBody nc s).currentBatchSize = s.currentBatchSize := by
  unfold watchCardBody; dsimp only; split <;> split <;> simp_all

@[simp] lemma watchCardBody_cards (nc : Option StudyCard) (s : SessionState) :
    (watchCardBody nc s).cards = s.cards := by
  unfold watchCardBody; dsimp only; split <;> split <;> simp_all

@[simp] lemma watchCardBody_cardIndex (nc : Option StudyCard) (s : SessionState) :
    (watchCardBody nc s).cardIndex = s.cardIndex := by
  unfold watchCardBody; dsimp only; split <;> split <;> simp_all

@[simp] lemma watchCardBody_session (nc : Option StudyCard) (s : SessionState) :
    (watchCardBody nc s).cardsReviewedInSession = s.cardsReviewedInSession := by
  unfold watchCardBody; dsimp only; split <;> split <;> simp_all

@[simp] lemma watchCardBody_isSubmitting (nc : Option StudyCard) (s : SessionState) :
    (watchCardBody nc s).isSubmitting = s.isSubmitting := by
  unfold watchCardBody; dsimp only; split <;> split <;> simp_all

@[simp] lemma watchCardBody_inFlight (nc : Option StudyCard) (s : SessionState) :
    (watchCardBody nc s).inFlight = s.inFlight := by
  unfold watchCardBody; dsimp only; split <;> split <;> simp_all

@[simp] lemma watchCardBody_user (nc : Option StudyCard) (s : SessionState) :
    (watchCardBody nc s).user = s.user := by
  unfold watchCardBody; dsimp only; split <;> split <;> simp_all

@[simp] lemma watchCardBody_tokenCookie (nc : Option StudyCard) (s : SessionState) :
    (watchCardBody nc s).tokenCookie = s.tokenCookie := by
  unfold watchCardBody; dsimp only; split <;> split <;> simp_all

@[simp] lemma watchCardBody_mode (nc : Option StudyCard) (s : SessionState) :
    (watchCardBody nc s).mode = s.mode := by
  unfold watchCardBody; dsimp only; split <;> split <;> simp_all

@[simp] lemma watchCardBody_now (nc : Option StudyCard) (s : SessionState) :
    (watchCardBody nc s).now = s.now := by
  unfold watchCardBody; dsimp only; split <;> split <;> simp_all

@[simp] lemma watchCardBody_flipTime (nc : Option StudyCard) (s : SessionState) :
    (watchCardBody nc s).flipTime = s.flipTime := by
  unfold watchCardBody; dsimp only; split <;> split <;> simp_all

@[simp] lemma watchCardBody_posts (nc : Option StudyCard) (s : SessionState) :
    (watchCardBody nc s).posts = s.posts := by
  unfold watchCardBody; dsimp only; split <;> split <;> simp_all

lemma watchCardBody_buttonsEnabled (nc : Option StudyCard) (s : SessionState) :
    (watchCardBody nc s).buttonsEnabled =
      (if isLoggedIn s then false else s.buttonsEnabled) := by
  unfold watchCardBody; dsimp only; split <;> split <;> simp_all

lemma watchCardBody_finished_mono (nc : Option StudyCard) (s : SessionState)
    (h : s.sessionFinished = true) : (watchCardBody nc s).sessionFinished = true := by
  unfold watchCardBody; dsimp only; split <;> split <;> simp_all

lemma watchCardBody_emitted_mono (nc : Option StudyCard) (s : SessionState)
    (h : s.sessionEndEmitted = true) :
    (watchCardBody nc s).sessionEndEmitted = true := by
  unfold watchCardBody; dsimp only; split <;> split <;> simp_all

@[simp] lemma applyCardWatch_batch (p q : SessionState) :
    (applyCardWatch p q).cardsReviewedInBatch = q.cardsReviewedInBatch := by
  unfold applyCardWatch; split <;> simp

@[simp] lemma applyCardWatch_batchSize (p q : SessionState) :
    (applyCardWatch p q).currentBatchSize = q.currentBatchSize := by
  unfold applyCardWatch; split <;> simp

@[simp] lemma applyCardWatch_cards (p q : SessionState) :
    (applyCardWatch p q).cards = q.cards := by
  unfold applyCardWatch; split <;> simp

@[simp] lemma applyCardWatch_cardIndex (p q : SessionState) :
    (applyCardWatch p q).cardIndex = q.cardIndex := by
  unfold applyCardWatch; split <;> simp

@[simp] lemma applyCardWatch_session (p q : SessionState) :
    (applyCardWatch p q).cardsReviewedInSession = q.cardsReviewedInSession := by
  unfold applyCardWatch; split <;> simp

@[simp] lemma applyCardWatch_isSubmitting (p q : SessionState) :
    (applyCardWatch p q).isSubmitting = q.isSubmitting := by
  unfold applyCardWatch; split <;> simp

@[simp] lemma applyCardWatch_inFlight (p q : SessionState) :
    (applyCardWatch p q).inFlight = q.inFlight := by
  unfold applyCardWatch; split <;> simp

@[simp] lemma applyCardWatch_user (p q : SessionState) :
    (applyCardWatch p q).user = q.user := by
  unfold applyCardWatch; split <;> simp

@[simp] lemma applyCardWatch_tokenCookie (p q : SessionState) :
    (applyCardWatch p q).tokenCookie = q.tokenCookie := by
  unfold applyCardWatch; split <;> simp

@[simp] lemma applyCardWatch_mode (p q : SessionState) :
    (applyCardWatch p q).mode = q.mode := by
  unfold applyCardWatch; split <;> simp

@[simp] lemma applyCardWatch_now (p q : SessionState) :
    (applyCardWatch p q).now = q.now := by
  unfold applyCardWatch; split <;> simp

@[simp] lemma applyCardWatch_flipTime (p q : SessionState) :
    (applyCardWatch p q).flipTime = q.flipTime := by
  unfold applyCardWatch; split <;> simp

@[simp] lemma applyCardWatch_posts (p q : SessionState) :
    (applyCardWatch p q).posts = q.posts := by
  unfold applyCardWatch; split <;> simp

lemma applyCardWatch_finished_mono (p q : SessionState)
    (h : q.sessionFinished = true) : (applyCardWatch p q).sessionFinished = true := by
  unfold applyCardWatch; split
  · exact watchCardBody_finished_mono _ _ h
  · exact h

lemma applyCardWatch_emitted_mono (p q : SessionState)
    (h : q.sessionEndEmitted = true) :
    (applyCardWatch p q).sessionEndEmitted = true := by
  unfold applyCardWatch; split
  · exact watchCardBody_emitted_mono _ _ h
  · exact h

@[simp] lemma watchCardsBody_batch (s : SessionState) :
    (watchCardsBody s).cardsReviewedInBatch = s.cardsReviewedInBatch := by
  unfold watchCardsBody; split <;> (try split) <;> rfl

@[simp] lemma watchCardsBody_cards (s : SessionState) :
    (watchCardsBody s).cards = s.cards := by
  unfold watchCardsBody; split <;> (try split) <;> rfl

@[simp] lemma watchCardsBody_cardIndex (s : SessionState) :
    (watchCardsBody s).cardIndex = s.cardIndex := by
  unfold watchCardsBody; split <;> (try split) <;> rfl

@[simp] lemma watchCardsBody_session (s : SessionState) :
    (watchCardsBody s).cardsReviewedInSession = s.cardsReviewedInSession := by
  unfold watchCardsBody; split <;> (try split) <;> rfl

@[simp] lemma watchCardsBody_finished (s : SessionState) :
    (watchCardsBody s).sessionFinished = s.sessionFinished := by
  unfold watchCardsBody; split <;> (try split) <;> rfl

@[simp] lemma watchCardsBody_isSubmitting (s : SessionState) :
    (watchCardsBody s).isSubmitting = s.isSubmitting := by
  unfold watchCardsBody; split <;> (try split) <;> rfl

@[simp] lemma watchCardsBody_inFlight (s : SessionState) :
    (watchCardsBody s).inFlight = s.inFlight := by
  unfold watchCardsBody; split <;> (try split) <;> rfl

@[simp] lemma watchCardsBody_user (s : SessionState) :
    (watchCardsBody s).user = s.user := by
  unfold watchCardsBody; split <;> (try split) <;> rfl

@[simp] lemma watchCardsBody_tokenCookie (s : SessionState) :
    (watchCardsBody s).tokenCookie = s.tokenCookie := by
  unfold watchCardsBody; split <;> (try split) <;> rfl

@[simp] lemma watchCardsBody_mode (s : SessionState) :
    (watchCardsBody s).mode = s.mode := by
  unfold watchCardsBody; split <;> (try split) <;> rfl

@[simp] lemma watchCardsBody_mounted (s : SessionState) :
    (watchCardsBody s).mounted = s.mounted := by
  unfold watchCardsBody; split <;> (try split) <;> rfl

@[simp] lemma watchCardsBody_events (s : SessionState) :
    (watchCardsBody s).events = s.events := by
  unfold watchCardsBody; split <;> (try split) <;> rfl

@[simp] lemma watchCardsBody_emitted (s : SessionState) :
    (watchCardsBody s).sessionEndEmitted = s.sessionEndEmitted := by
  unfold watchCardsBody; split <;> (try split) <;> rfl

@[simp] lemma watchCardsBody_posts (s : SessionState) :
    (watchCardsBody s).posts = s.posts := by
  unfold watchCardsBody; split <;> (try split) <;> rfl

@[simp] lemma watchCardsBody_buttonsEnabled (s : SessionState) :
    (watchCardsBody s).buttonsEnabled = s.buttonsEnabled := by
  unfold watchCardsBody; split <;> (try split) <;> rfl

@[simp] lemma watchCardsBody_buttonsTimer (s : SessionState) :
    (watchCardsBody s).buttonsTimer = s.buttonsTimer := by
  unfold watchCardsBody; split <;> (try split) <;> rfl

@[simp] lemma watchCardsBody_now (s : SessionState) :
    (watchCardsBody s).now = s.now := by
  unfold watchCardsBody; split <;> (try split) <;> rfl

@[simp] lemma watchCardsBody_flipTime (s : SessionState) :
    (watchCardsBody s).flipTime = s.flipTime := by
  unfold watchCardsBody; split <;> (try split) <;> rfl

lemma watchCardsBody_batchSize (s : SessionState) :
    (watchCardsBody s).currentBatchSize =
      (if s.currentBatchSize = 0 then
        (if s.mode = Mode.due then s.cards.length else min BATCH_SIZE s.cards.length)
      else s.currentBatchSize) := by
  unfold watchCardsBody; split <;> (try split) <;> simp_all

/-! ## Invariant over all reachable states -/

/-- Bookkeeping invariant of the orchestrator: the number of `session_end`
events in the log matches the `sessionEndEmitted` flag, and the
`isSubmitting` flag tracks exactly the in-flight review request. -/
def InvF (s : SessionState) : Prop :=
  countSE s.events = (if s.sessionEndEmitted then 1 else 0) ∧
  s.isSubmitting = s.inFlight.isSome

lemma invF_track (e : EventType) (s : SessionState) (he : isSE e = false)
    (h : InvF s) : InvF (track e s) := by
  obtain ⟨h1, h2⟩ := h
  refine ⟨?_, ?_⟩
  · simp [track, countSE_append, he, h1]
  · simpa [track] using h2

lemma invF_emit (r : EndReason) (s : SessionState) (h : InvF s) :
    InvF (emitSessionEnd r s) := by
  obtain ⟨h1, h2⟩ := h
  refine ⟨?_, ?_⟩
  · rw [emitSessionEnd_emitted]; simpa using emitSessionEnd_countSE r s h1
  · rw [emitSessionEnd_isSubmitting, emitSessionEnd_inFlight]; exact h2

lemma invF_unmount (s : SessionState) (h : InvF s) : InvF (unmountBody s) := by
  have h' : InvF { s with
      pendingTimers := clearTimeout s.buttonsTimer s.pendingTimers,
      mounted := false } := ⟨h.1, h.2⟩
  unfold unmountBody
  exact invF_emit _ _ h'

lemma invF_finish (r : EndReason) (s : SessionState) (h : InvF s) :
    InvF (finishSession r s) := by
  unfold finishSession; dsimp only
  split
  · exact invF_unmount _ (invF_emit r s h)
  · have he := invF_emit r s h
    exact ⟨he.1, he.2⟩

lemma invF_watchCardBody (nc : Option StudyCard) (s : SessionState)
    (h : InvF s) : InvF (watchCardBody nc s) := by
  unfold watchCardBody; dsimp only
  split
  · have hrec : InvF ({ s with
        revealed := false, buttonsEnabled := false,
        pendingTimers := clearTimeout s.buttonsTimer s.pendingTimers,
        buttonsTimer := none, frontShownAt := s.now } : SessionState) :=
      ⟨h.1, h.2⟩
    split
    · exact invF_finish _ _ hrec
    · exact hrec
  · split
    · exact invF_finish _ _ h
    · exact h

lemma invF_applyCardWatch (p q : SessionState) (h : InvF q) :
    InvF (applyCardWatch p q) := by
  unfold applyCardWatch; split
  · exact invF_watchCardBody _ _ h
  · exact h

lemma invF_watchCards (s : SessionState) (h : InvF s) :
    InvF (watchCardsBody s) := by
  obtain ⟨h1, h2⟩ := h
  refine ⟨?_, ?_⟩
  · simpa using h1
  · simpa using h2

lemma invF_flipCard (s : SessionState) (h : InvF s) : InvF (flipCard s) := by
  obtain ⟨h1, h2⟩ := h
  unfold flipCard; dsimp only
  split
  · refine ⟨?_, ?_⟩
    · simp [track, countSE_append, h1]
    · simpa [track] using h2
  · exact ⟨by simpa using h1, by simpa using h2⟩

lemma invF_nextCard (s : SessionState) (h : InvF s) : InvF (nextCard s) := by
  unfold nextCard; dsimp only
  apply invF_applyCardWatch
  split <;> split <;>
    first
      | exact invF_emit _ _ ⟨h.1, h.2⟩
      | exact ⟨h.1, h.2⟩

lemma invF_recordResponse (g : Grade) (s : SessionState) (h : InvF s) :
    InvF (recordResponse g s) := by
  unfold recordResponse
  cases hc : card s with
  | none => exact h
  | some c =>
    dsimp only
    split
    · exact h
    · obtain ⟨h1, h2⟩ := h
      refine ⟨?_, ?_⟩
      · simp [track, countSE_append, h1]
      · simp [track]

lemma invF_clearFlags (s : SessionState) (h : InvF s) :
    InvF { s with isSubmitting := false, inFlight := none } :=
  ⟨h.1, rfl⟩

lemma invF_transfer (a b : SessionState) (h : InvF a)
    (hev : b.events = a.events) (hem : b.sessionEndEmitted = a.sessionEndEmitted)
    (hsub : b.isSubmitting = a.isSubmitting) (hin : b.inFlight = a.inFlight) :
    InvF b := by
  obtain ⟨h1, h2⟩ := h
  refine ⟨?_, ?_⟩
  · rw [hev, hem]; exact h1
  · rw [hsub, hin]; exact h2

lemma invF_submitSuccess (newCards : List StudyCard) (s : SessionState)
    (h : InvF s) : InvF (submitResolveSuccess newCards s) := by
  unfold submitResolveSuccess; dsimp only
  apply invF_clearFlags
  split <;> split
  all_goals
    first
      | (apply invF_applyCardWatch
         apply invF_watchCards
         refine invF_transfer _ _ ?_ rfl rfl rfl rfl
         apply invF_applyCardWatch
         exact invF_transfer _ _ h rfl rfl rfl rfl)
      | (refine invF_transfer _ _ ?_ rfl rfl rfl rfl
         apply invF_applyCardWatch
         exact invF_transfer _ _ h rfl rfl rfl rfl)

lemma invF_submitFail401 (s : SessionState) (h : InvF s) :
    InvF (submitResolveFail401 s) := by
  unfold submitResolveFail401; dsimp only
  apply invF_clearFlags
  have h1 : InvF (logout s) := ⟨h.1, h.2⟩
  split
  · exact invF_unmount _ h1
  · exact h1

lemma invF_submitFailOther (s : SessionState) (h : InvF s) :
    InvF (submitResolveFailOther s) := by
  unfold submitResolveFailOther
  exact invF_clearFlags s h

lemma invF_keepGoing (s : SessionState) (h : InvF s) : InvF (keepGoing s) := by
  unfold keepGoing; dsimp only
  apply invF_applyCardWatch
  have htr := invF_track .keepGoingEvt s rfl h
  split <;> (try split) <;> exact ⟨htr.1, htr.2⟩

lemma invF_modeChange (m : Mode) (s : SessionState) (h : InvF s) :
    InvF (modeChangeBody m s) := by
  unfold modeChangeBody; dsimp only
  split
  · exact h
  · apply invF_applyCardWatch
    apply invF_watchCards
    exact ⟨h.1, h.2⟩

lemma invF_cardsArrive (newCards : List StudyCard) (s : SessionState)
    (h : InvF s) : InvF (cardsArrive newCards s) := by
  unfold cardsArrive; dsimp only
  apply invF_applyCardWatch
  apply invF_watchCards
  exact ⟨h.1, h.2⟩

lemma invF_initState (cards0 : List StudyCard) (mode0 : Mode)
    (user0 tok0 : Option String) : InvF (initState cards0 mode0 user0 tok0) := by
  unfold initState
  apply invF_watchCards
  refine ⟨?_, ?_⟩
  · simp [countSE]
  · rfl

lemma invF_step (op : Op) (s s' : SessionState)
    (hstep : step op s = some s') (h : InvF s) : InvF s' := by
  cases op with
  | tick d =>
    simp only [step, Option.some.injEq] at hstep
    subst hstep
    exact ⟨h.1, h.2⟩
  | timerFire id =>
    cases hfind : s.pendingTimers.find? (fun e => e.1 == id) with
    | none =>
      simp only [step, hfind] at hstep
      exact Option.noConfusion hstep
    | some e =>
      simp only [step, hfind] at hstep
      split at hstep
      · cases hstep
        exact ⟨h.1, h.2⟩
      · exact Option.noConfusion hstep
  | flip =>
    simp only [step] at hstep
    split at hstep
    · simp only [Option.some.injEq] at hstep; subst hstep
      exact invF_flipCard s h
    · cases hstep
  | next =>
    simp only [step] at hstep
    split at hstep
    · simp only [Option.some.injEq] at hstep; subst hstep
      exact invF_nextCard s h
    · cases hstep
  | submitBegin g =>
    simp only [step] at hstep
    split at hstep
    · simp only [Option.some.injEq] at hstep; subst hstep
      exact invF_recordResponse g s h
    · cases hstep
  | submitSuccess newCards =>
    simp only [step] at hstep
    split at hstep
    · simp only [Option.some.injEq] at hstep; subst hstep
      exact invF_submitSuccess newCards s h
    · cases hstep
  | submitFail401 =>
    simp only [step] at hstep
    split at hstep
    · simp only [Option.some.injEq] at hstep; subst hstep
      exact invF_submitFail401 s h
    · cases hstep
  | submitFailOther =>
    simp only [step] at hstep
    split at hstep
    · simp only [Option.some.injEq] at hstep; subst hstep
      exact invF_submitFailOther s h
    · cases hstep
  | keepGoingOp =>
    simp only [step] at hstep
    split at hstep
    · simp only [Option.some.injEq] at hstep; subst hstep
      exact invF_keepGoing s h
    · cases hstep
  | finishUser =>
    simp only [step] at hstep
    split at hstep
    · simp only [Option.some.injEq] at hstep; subst hstep
      exact invF_finish .userEnded s h
    · cases hstep
  | modeChange m =>
    simp only [step] at hstep
    split at hstep
    · simp only [Option.some.injEq] at hstep; subst hstep
      exact invF_modeChange m s h
    · cases hstep
  | cardsArriveOp newCards =>
    simp only [step] at hstep
    split at hstep
    · simp only [Option.some.injEq] at hstep; subst hstep
      exact invF_cardsArrive newCards s h
    · cases hstep
  | unmount =>
    simp only [step] at hstep
    split at hstep
    · simp only [Option.some.injEq] at hstep; subst hstep
      exact invF_unmount s h
    · cases hstep

/-- The bookkeeping invariant holds in every reachable state. -/
lemma reach_invF (s : SessionState) (h : Reach s) : InvF s := by
  induction h with
  | init cards0 mode0 user0 tok0 => exact invF_initState cards0 mode0 user0 tok0
  | step t op t' _ hstep ih => exact invF_step op t t' hstep ih

/-! ## Monotonicity of the session-end flag, and post-log bookkeeping -/

@[simp] lemma track_emitted (e : EventType) (s : SessionState) :
    (track e s).sessionEndEmitted = s.sessionEndEmitted := rfl

@[simp] lemma track_posts (e : EventType) (s : SessionState) :
    (track e s).posts = s.posts := rfl

@[simp] lemma track_mounted (e : EventType) (s : SessionState) :
    (track e s).mounted = s.mounted := rfl

lemma flipCard_emitted (s : SessionState) :
    (flipCard s).sessionEndEmitted = s.sessionEndEmitted := by
  unfold flipCard; dsimp only; split <;> simp

lemma flipCard_posts (s : SessionState) : (flipCard s).posts = s.posts := by
  unfold flipCard; dsimp only; split <;> simp

lemma nextCard_emitted_mono (s : SessionState) (h : s.sessionEndEmitted = true) :
    (nextCard s).sessionEndEmitted = true := by
  unfold nextCard; dsimp only
  apply applyCardWatch_emitted_mono
  split <;> split <;> simp [h]

lemma nextCard_posts (s : SessionState) : (nextCard s).posts = s.posts := by
  unfold nextCard; dsimp only
  rw [applyCardWatch_posts]
  split <;> split <;> simp

lemma recordResponse_emitted (g : Grade) (s : SessionState) :
    (recordResponse g s).sessionEndEmitted = s.sessionEndEmitted := by
  unfold recordResponse
  cases card s with
  | none => rfl
  | some c => dsimp only; split <;> simp

lemma submitSuccess_emitted_mono (newCards : List StudyCard) (s : SessionState)
    (h : s.sessionEndEmitted = true) :
    (submitResolveSuccess newCards s).sessionEndEmitted = true := by
  unfold submitResolveSuccess; dsimp only
  split <;> split <;>
    first
      | (apply applyCardWatch_emitted_mono
         simp only [watchCardsBody_emitted]
         apply applyCardWatch_emitted_mono
         simp [h])
      | (apply applyCardWatch_emitted_mono
         simp [h])

lemma submitSuccess_posts (newCards : List StudyCard) (s : SessionState) :
    (submitResolveSuccess newCards s).posts = s.posts := by
  unfold submitResolveSuccess; dsimp only
  split <;> split <;> simp

lemma fail401_emitted_mono (s : SessionState) (h : s.sessionEndEmitted = true) :
    (submitResolveFail401 s).sessionEndEmitted = true := by
  unfold submitResolveFail401; dsimp only
  split <;> simp [logout, h]

lemma fail401_posts (s : SessionState) :
    (submitResolveFail401 s).posts = s.posts := by
  unfold submitResolveFail401; dsimp only
  split <;> simp [logout]

lemma fail401_mounted (s : SessionState) :
    (submitResolveFail401 s).mounted = false := by
  unfold submitResolveFail401; dsimp only
  split
  · simp
  · rename_i hcond
    simp only [logout] at hcond ⊢
    simpa using hcond

lemma keepGoing_emitted_mono (s : SessionState) (h : s.sessionEndEmitted = true) :
    (keepGoing s).sessionEndEmitted = true := by
  unfold keepGoing; dsimp only
  apply applyCardWatch_emitted_mono
  split <;> (try split) <;> simp [h]

lemma keepGoing_posts (s : SessionState) : (keepGoing s).posts = s.posts := by
  unfold keepGoing; dsimp only
  rw [applyCardWatch_posts]
  split <;> (try split) <;> simp

lemma modeChange_emitted_mono (m : Mode) (s : SessionState)
    (h : s.sessionEndEmitted = true) :
    (modeChangeBody m s).sessionEndEmitted = true := by
  unfold modeChangeBody; dsimp only
  split
  · exact h
  · exact applyCardWatch_emitted_mono _ _ (by simp [h])

lemma modeChange_posts (m : Mode) (s : SessionState) :
    (modeChangeBody m s).posts = s.posts := by
  unfold modeChangeBody; dsimp only
  split
  · rfl
  · simp

lemma cardsArrive_emitted_mono (newCards : List StudyCard) (s : SessionState)
    (h : s.sessionEndEmitted = true) :
    (cardsArrive newCards s).sessionEndEmitted = true := by
  unfold cardsArrive; dsimp only
  exact applyCardWatch_emitted_mono _ _ (by simp [h])

lemma cardsArrive_posts (newCards : List StudyCard) (s : SessionState) :
    (cardsArrive newCards s).posts = s.posts := by
  unfold cardsArrive; dsimp only; simp

/-- The `sessionEndEmitted` flag is never cleared by any transition. -/
lemma emitted_mono_step (op : Op) (s s' : SessionState)
    (hstep : step op s = some s') (h : s.sessionEndEmitted = true) :
    s'.sessionEndEmitted = true := by
  cases op with
  | tick d =>
    simp only [step, Option.some.injEq] at hstep; subst hstep; exact h
  | timerFire id =>
    cases hfind : s.pendingTimers.find? (fun e => e.1 == id) with
    | none =>
      simp only [step, hfind] at hstep
      exact Option.noConfusion hstep
    | some e =>
      simp only [step, hfind] at hstep
      split at hstep
      · cases hstep; simpa [timerFireBody] using h
      · exact Option.noConfusion hstep
  | flip =>
    simp only [step] at hstep; split at hstep
    · cases hstep; rw [flipCard_emitted]; exact h
    · exact Option.noConfusion hstep
  | next =>
    simp only [step] at hstep; split at hstep
    · cases hstep; exact nextCard_emitted_mono s h
    · exact Option.noConfusion hstep
  | submitBegin g =>
    simp only [step] at hstep; split at hstep
    · cases hstep; rw [recordResponse_emitted]; exact h
    · exact Option.noConfusion hstep
  | submitSuccess newCards =>
    simp only [step] at hstep; split at hstep
    · cases hstep; exact submitSuccess_emitted_mono newCards s h
    · exact Option.noConfusion hstep
  | submitFail401 =>
    simp only [step] at hstep; split at hstep
    · cases hstep; exact fail401_emitted_mono s h
    · exact Option.noConfusion hstep
  | submitFailOther =>
    simp only [step] at hstep; split at hstep
    · cases hstep; simpa [submitResolveFailOther] using h
    · exact Option.noConfusion hstep
  | keepGoingOp =>
    simp only [step] at hstep; split at hstep
    · cases hstep; exact keepGoing_emitted_mono s h
    · exact Option.noConfusion hstep
  | finishUser =>
    simp only [step] at hstep; split at hstep
    · cases hstep; simp
    · exact Option.noConfusion hstep
  | modeChange m =>
    simp only [step] at hstep; split at hstep
    · cases hstep; exact modeChange_emitted_mono m s h
    · exact Option.noConfusion hstep
  | cardsArriveOp newCards =>
    simp only [step] at hstep; split at hstep
    · cases hstep; exact cardsArrive_emitted_mono newCards s h
    · exact Option.noConfusion hstep
  | unmount =>
    simp only [step] at hstep; split at hstep
    · cases hstep; simp
    · exact Option.noConfusion hstep

lemma applyCardWatch_of_unmounted (p q : SessionState) (h : q.mounted = false) :
    applyCardWatch p q = q := by
  unfold applyCardWatch
  rw [if_neg]
  rintro ⟨h1, -⟩
  rw [h] at h1
  exact Bool.noConfusion h1

lemma submitSuccess_mounted_unmounted (newCards : List StudyCard)
    (s : SessionState) (h : s.mounted = false) :
    (submitResolveSuccess newCards s).mounted = false := by
  unfold submitResolveSuccess; dsimp only
  split <;>
    · rw [applyCardWatch_of_unmounted _ _ (by simp [h])]
      rw [if_neg (by simp [h])]
      simp [h]

/-- Once the component is unmounted no transition can issue another review
POST, and the component never comes back. -/
lemma step_unmounted (op : Op) (s s' : SessionState)
    (hm : s.mounted = false) (hstep : step op s = some s') :
    s'.posts = s.posts ∧ s'.mounted = false := by
  cases op with
  | tick d =>
    simp only [step, Option.some.injEq] at hstep; subst hstep; exact ⟨rfl, hm⟩
  | timerFire id =>
    cases hfind : s.pendingTimers.find? (fun e => e.1 == id) with
    | none =>
      simp only [step, hfind] at hstep
      exact Option.noConfusion hstep
    | some e =>
      simp only [step, hfind] at hstep
      split at hstep
      · cases hstep; exact ⟨rfl, hm⟩
      · exact Option.noConfusion hstep
  | flip =>
    simp only [step] at hstep; split at hstep
    · rename_i hg; rw [hm] at hg; simp at hg
    · exact Option.noConfusion hstep
  | next =>
    simp only [step] at hstep; split at hstep
    · rename_i hg; rw [hm] at hg; simp at hg
    · exact Option.noConfusion hstep
  | submitBegin g =>
    simp only [step] at hstep; split at hstep
    · rename_i hg; rw [hm] at hg; simp at hg
    · exact Option.noConfusion hstep
  | submitSuccess newCards =>
    simp only [step] at hstep; split at hstep
    · cases hstep
      exact ⟨submitSuccess_posts newCards s,
        submitSuccess_mounted_unmounted newCards s hm⟩
    · exact Option.noConfusion hstep
  | submitFail401 =>
    simp only [step] at hstep; split at hstep
    · cases hstep; exact ⟨fail401_posts s, fail401_mounted s⟩
    · exact Option.noConfusion hstep
  | submitFailOther =>
    simp only [step] at hstep; split at hstep
    · cases hstep; exact ⟨rfl, hm⟩
    · exact Option.noConfusion hstep
  | keepGoingOp =>
    simp only [step] at hstep; split at hstep
    · rename_i hg; rw [hm] at hg; simp at hg
    · exact Option.noConfusion hstep
  | finishUser =>
    simp only [step] at hstep; split at hstep
    · rename_i hg; rw [hm] at hg; simp at hg
    · exact Option.noConfusion hstep
  | modeChange m =>
    simp only [step] at hstep; split at hstep
    · rename_i hg; rw [hm] at hg; simp at hg
    · exact Option.noConfusion hstep
  | cardsArriveOp newCards =>
    simp only [step] at hstep; split at hstep
    · rename_i hg; rw [hm] at hg; simp at hg
    · exact Option.noConfusion hstep
  | unmount =>
    simp only [step] at hstep; split at hstep
    · rename_i hg; rw [hm] at hg; simp at hg
    · exact Option.noConfusion hstep

lemma runOps_reach (ops : List Op) :
    ∀ s s' : SessionState, Reach s → runOps ops s = some s' → Reach s' := by
  induction ops with
  | nil =>
    intro s s' h hrun
    simp only [runOps, Option.some.injEq] at hrun
    subst hrun; exact h
  | cons op ops ih =>
    intro s s' h hrun
    cases hstep : step op s with
    | none => simp only [runOps, hstep] at hrun; exact Option.noConfusion hrun
    | some t =>
      simp only [runOps, hstep] at hrun
      exact ih t s' (Reach.step s op t h hstep) hrun

lemma runOps_unmounted (ops : List Op) :
    ∀ s s' : SessionState, s.mounted = false → runOps ops s = some s' →
      s'.posts = s.posts ∧ s'.mounted = false := by
  induction ops with
  | nil =>
    intro s s' hm hrun
    simp only [runOps, Option.some.injEq] at hrun
    subst hrun; exact ⟨rfl, hm⟩
  | cons op ops ih =>
    intro s s' hm hrun
    cases hstep : step op s with
    | none => simp only [runOps, hstep] at hrun; exact Option.noConfusion hrun
    | some t =>
      simp only [runOps, hstep] at hrun
      obtain ⟨hp, hmt⟩ := step_unmounted op s t hm hstep
      obtain ⟨hp', hm'⟩ := ih t s' hmt hrun
      exact ⟨hp'.trans hp, hm'⟩

/-! ## Batch-size invariant along mode-change-safe traces -/

/-- A current card exists only while the session is not finished and the
card list is non-empty. -/
lemma card_facts (s : SessionState) (h : (card s).isSome = true) :
    s.sessionFinished = false ∧ s.cards ≠ [] := by
  unfold card at h
  split at h
  · simp at h
  · rename_i hf
    refine ⟨Bool.eq_false_iff.mpr hf, ?_⟩
    split at h
    · intro hnil; rw [hnil] at h; simp at h
    · intro hnil; rw [hnil] at h; simp at h

/-- Inductive invariant for C2: the submit flag mirrors the in-flight
request; the batch counter never exceeds the batch size; hitting a
positive batch size implies the finished flag; a non-empty card list comes
with a positive batch size; and an in-flight submission implies a
logged-in user strictly inside the batch. -/
def InvA (s : SessionState) : Prop :=
  s.isSubmitting = s.inFlight.isSome ∧
  s.cardsReviewedInBatch ≤ s.currentBatchSize ∧
  (s.cardsReviewedInBatch = s.currentBatchSize → 0 < s.currentBatchSize →
    s.sessionFinished = true) ∧
  (s.cards ≠ [] → 0 < s.currentBatchSize) ∧
  (s.inFlight.isSome = true →
    isLoggedIn s = true ∧ s.cardsReviewedInBatch < s.currentBatchSize)

lemma invA_transfer (a b : SessionState) (h : InvA a)
    (hsub : b.isSubmitting = a.isSubmitting) (hin : b.inFlight = a.inFlight)
    (hrb : b.cardsReviewedInBatch = a.cardsReviewedInBatch)
    (hbs : b.currentBatchSize = a.currentBatchSize)
    (hc : b.cards = a.cards) (hu : b.user = a.user)
    (hf : a.sessionFinished = true → b.sessionFinished = true) : InvA b := by
  obtain ⟨a1, a2, a3, a4, a5⟩ := h
  refine ⟨?_, ?_, ?_, ?_, ?_⟩
  · rw [hsub, hin]; exact a1
  · rw [hrb, hbs]; exact a2
  · rw [hrb, hbs]; intro he hp; exact hf (a3 he hp)
  · rw [hc, hbs]; exact a4
  · rw [hin, hrb, hbs]; intro hi
    obtain ⟨hl, hlt⟩ := a5 hi
    refine ⟨?_, hlt⟩
    unfold isLoggedIn at hl ⊢
    rw [hu]; exact hl

lemma invA_of_cleared (b : SessionState)
    (hsub : b.isSubmitting = false) (hin : b.inFlight = none)
    (h2 : b.cardsReviewedInBatch ≤ b.currentBatchSize)
    (h3 : b.cardsReviewedInBatch = b.currentBatchSize →
      0 < b.currentBatchSize → b.sessionFinished = true)
    (h4 : b.cards ≠ [] → 0 < b.currentBatchSize) : InvA b := by
  refine ⟨by rw [hsub, hin]; rfl, h2, h3, h4, ?_⟩
  rw [hin]; intro hi; simp at hi

lemma invA_emit (r : EndReason) (s : SessionState) (h : InvA s) :
    InvA (emitSessionEnd r s) :=
  invA_transfer s (emitSessionEnd r s) h (emitSessionEnd_isSubmitting r s)
    (emitSessionEnd_inFlight r s) (emitSessionEnd_batch r s)
    (emitSessionEnd_batchSize r s) (emitSessionEnd_cards r s)
    (emitSessionEnd_user r s)
    (fun hx => by rw [emitSessionEnd_finished]; exact hx)

lemma invA_unmount (s : SessionState) (h : InvA s) : InvA (unmountBody s) :=
  invA_transfer s (unmountBody s) h (unmountBody_isSubmitting s)
    (unmountBody_inFlight s) (unmountBody_batch s) (unmountBody_batchSize s)
    (unmountBody_cards s) (unmountBody_user s)
    (fun hx => by rw [unmountBody_finished]; exact hx)

lemma invA_finish (r : EndReason) (s : SessionState) (h : InvA s) :
    InvA (finishSession r s) :=
  invA_transfer s (finishSession r s) h (finishSession_isSubmitting r s)
    (finishSession_inFlight r s) (finishSession_batch r s)
    (finishSession_batchSize r s) (finishSession_cards r s)
    (finishSession_user r s) (finishSession_finished_mono r s)

lemma invA_watchCardBody (nc : Option StudyCard) (s : SessionState)
    (h : InvA s) : InvA (watchCardBody nc s) :=
  invA_transfer s (watchCardBody nc s) h (watchCardBody_isSubmitting nc s)
    (watchCardBody_inFlight nc s) (watchCardBody_batch nc s)
    (watchCardBody_batchSize nc s) (watchCardBody_cards nc s)
    (watchCardBody_user nc s) (watchCardBody_finished_mono nc s)

lemma invA_applyCardWatch (p q : SessionState) (h : InvA q) :
    InvA (applyCardWatch p q) := by
  unfold applyCardWatch; split
  · exact invA_watchCardBody _ _ h
  · exact h

/-- `watch(cards)` re-establishes the invariant from its first three and
fifth components alone (the card-list component is recomputed). -/
lemma invA_watchCards (s : SessionState)
    (h1 : s.isSubmitting = s.inFlight.isSome)
    (h2 : s.cardsReviewedInBatch ≤ s.currentBatchSize)
    (h3 : s.cardsReviewedInBatch = s.currentBatchSize →
      0 < s.currentBatchSize → s.sessionFinished = true)
    (h5 : s.inFlight.isSome = true →
      isLoggedIn s = true ∧ s.cardsReviewedInBatch < s.currentBatchSize) :
    InvA (watchCardsBody s) := by
  unfold watchCardsBody
  split
  · rename_i h0
    have hrb0 : s.cardsReviewedInBatch = 0 := by omega
    split
    · refine ⟨h1, by simp [hrb0], ?_, ?_, ?_⟩
      · intro he hp; simp [hrb0] at he hp; omega
      · intro hne; simp at hne ⊢
        exact List.length_pos.mpr hne
      · intro hi; simp at hi
        obtain ⟨hl, hlt⟩ := h5 hi
        rw [h0] at hlt; omega
    · refine ⟨h1, by simp [hrb0], ?_, ?_, ?_⟩
      · intro he hp; simp [hrb0] at he hp; omega
      · intro hne; simp at hne ⊢
        have := List.length_pos.mpr hne
        unfold BATCH_SIZE
        omega
      · intro hi; simp at hi
        obtain ⟨hl, hlt⟩ := h5 hi
        rw [h0] at hlt; omega
  · rename_i h0
    refine ⟨h1, h2, h3, fun _ => by omega, h5⟩

/-- While a card is displayed, the batch counter is strictly below the
batch size. -/
lemma invA_lt_of_card (s : SessionState) (h : InvA s)
    (hc : (card s).isSome = true) :
    s.cardsReviewedInBatch < s.currentBatchSize := by
  obtain ⟨a1, a2, a3, a4, a5⟩ := h
  obtain ⟨hf, hne⟩ := card_facts s hc
  have hp := a4 hne
  rcases Nat.eq_or_lt_of_le a2 with he | hlt
  · have := a3 he hp
    rw [hf] at this
    exact Bool.noConfusion this
  · exact hlt

lemma invA_flipCard (s : SessionState) (h : InvA s) : InvA (flipCard s) := by
  unfold flipCard; dsimp only
  split <;>
    exact invA_transfer _ _ h (by simp [track]) (by simp [track])
      (by simp [track]) (by simp [track]) (by simp [track]) (by simp [track])
      (fun hx => by simpa [track] using hx)

lemma invA_nextCard (s : SessionState) (h : InvA s)
    (hc : (card s).isSome = true) (hlog : isLoggedIn s = false) :
    InvA (nextCard s) := by
  have hlt := invA_lt_of_card s h hc
  obtain ⟨a1, a2, a3, a4, a5⟩ := h
  unfold nextCard; dsimp only
  apply invA_applyCardWatch
  have hrec2 : InvA ({ s with
      cardsReviewedInSession := s.cardsReviewedInSession + 1,
      cardsReviewedInBatch := s.cardsReviewedInBatch + 1,
      cardIndex := s.cardIndex + 1, revealed := false,
      frontShownAt := s.now, sessionFinished := true } : SessionState) := by
    refine ⟨by simpa using a1, by simp; omega, ?_, ?_, ?_⟩
    · intro _ _; rfl
    · intro hne; simp at hne ⊢; exact a4 hne
    · intro hi; simp at hi
      have := (a5 hi).1
      rw [hlog] at this
      exact Bool.noConfusion this
  have hrec1 : ¬(s.currentBatchSize ≤ s.cardsReviewedInBatch + 1) →
      InvA ({ s with
        cardsReviewedInSession := s.cardsReviewedInSession + 1,
        cardsReviewedInBatch := s.cardsReviewedInBatch + 1,
        cardIndex := s.cardIndex + 1, revealed := false,
        frontShownAt := s.now } : SessionState) := by
    intro hcond
    refine ⟨by simpa using a1, by simp; omega, ?_, ?_, ?_⟩
    · intro he hp; simp at he hp; omega
    · intro hne; simp at hne ⊢; exact a4 hne
    · intro hi; simp at hi
      have := (a5 hi).1
      rw [hlog] at this
      exact Bool.noConfusion this
  split
  · rename_i hcond
    split
    · exact invA_emit _ _ hrec2
    · exact hrec2
  · rename_i hcond
    split
    · exact invA_emit _ _ (hrec1 hcond)
    · exact hrec1 hcond

lemma invA_recordResponse (g : Grade) (s : SessionState) (h : InvA s)
    (hlog : isLoggedIn s = true) : InvA (recordResponse g s) := by
  obtain ⟨a1, a2, a3, a4, a5⟩ := h
  unfold recordResponse
  cases hc : card s with
  | none => exact ⟨a1, a2, a3, a4, a5⟩
  | some c =>
    dsimp only
    split
    · exact ⟨a1, a2, a3, a4, a5⟩
    · have hlt : s.cardsReviewedInBatch < s.currentBatchSize :=
        invA_lt_of_card s ⟨a1, a2, a3, a4, a5⟩ (by rw [hc]; rfl)
      refine ⟨by simp [track], by simpa [track] using a2, ?_, ?_, ?_⟩
      · intro he hp; simp [track] at he hp ⊢; exact a3 he hp
      · intro hne; simp [track] at hne ⊢; exact a4 hne
      · intro _
        constructor
        · simpa [track, isLoggedIn] using hlog
        · simpa [track] using hlt

lemma invA_submitSuccess (newCards : List StudyCard) (s : SessionState)
    (h : InvA s) (hin : s.inFlight.isSome = true) :
    InvA (submitResolveSuccess newCards s) := by
  obtain ⟨a1, a2, a3, a4, a5⟩ := h
  obtain ⟨hl, hlt⟩ := a5 hin
  have hnz : ¬(s.currentBatchSize = 0) := by omega
  unfold submitResolveSuccess; dsimp only
  split <;> rename_i hc2
  · -- the batch is exhausted: sessionFinished is set before the refresh
    split <;> rename_i hmt
    · refine invA_of_cleared _ rfl rfl ?_ ?_ ?_
      · simp [watchCardsBody_batchSize, hnz]; omega
      · intro _ _
        apply applyCardWatch_finished_mono
        simp only [watchCardsBody_finished]
        apply applyCardWatch_finished_mono
        rfl
      · intro _; simp [watchCardsBody_batchSize, hnz]; omega
    · refine invA_of_cleared _ rfl rfl ?_ ?_ ?_
      · simp; omega
      · intro _ _
        apply applyCardWatch_finished_mono
        rfl
      · intro _; simp; omega
  · -- strictly inside the batch: equality with the batch size is impossible
    split <;> rename_i hmt
    · refine invA_of_cleared _ rfl rfl ?_ ?_ ?_
      · simp [watchCardsBody_batchSize, hnz]; omega
      · intro he hp
        exfalso
        simp [watchCardsBody_batchSize, hnz] at he
        omega
      · intro _; simp [watchCardsBody_batchSize, hnz]; omega
    · refine invA_of_cleared _ rfl rfl ?_ ?_ ?_
      · simp; omega
      · intro he hp
        exfalso
        simp at he
        omega
      · intro _; simp; omega

lemma invA_fail401 (s : SessionState) (h : InvA s) :
    InvA (submitResolveFail401 s) := by
  obtain ⟨a1, a2, a3, a4, a5⟩ := h
  unfold submitResolveFail401; dsimp only
  split
  · refine invA_of_cleared _ rfl rfl ?_ ?_ ?_
    · simpa [logout] using a2
    · intro he hp; simp [logout] at he hp ⊢; exact a3 he hp
    · intro hne; simp [logout] at hne ⊢; exact a4 hne
  · refine invA_of_cleared _ rfl rfl ?_ ?_ ?_
    · simpa [logout] using a2
    · intro he hp; simp [logout] at he hp ⊢; exact a3 he hp
    · intro hne; simp [logout] at hne ⊢; exact a4 hne

lemma invA_failOther (s : SessionState) (h : InvA s) :
    InvA (submitResolveFailOther s) := by
  obtain ⟨a1, a2, a3, a4, a5⟩ := h
  unfold submitResolveFailOther
  refine invA_of_cleared _ rfl rfl ?_ ?_ ?_
  · simpa using a2
  · intro he hp; simp at he hp ⊢; exact a3 he hp
  · intro hne; simp at hne ⊢; exact a4 hne

lemma invA_keepGoing (s : SessionState) (h : InvA s)
    (hmore : 0 < remainingCards s) : InvA (keepGoing s) := by
  obtain ⟨a1, a2, a3, a4, a5⟩ := h
  have hlen : 0 < s.cards.length := by
    unfold remainingCards at hmore
    split at hmore <;> omega
  unfold keepGoing; dsimp only
  apply invA_applyCardWatch
  split <;> rename_i hdue
  · refine ⟨by simpa [track] using a1, by simp, ?_, ?_, ?_⟩
    · intro he hp
      exfalso
      simp [track] at he
      omega
    · intro _
      simpa [track] using hlen
    · intro hi
      simp [track] at hi
      exact ⟨by simpa [isLoggedIn, track] using (a5 hi).1, by simpa [track] using hlen⟩
  · split <;> rename_i hlog
    · refine ⟨by simpa [track] using a1, by simp, ?_, ?_, ?_⟩
      · intro he hp
        exfalso
        simp [track, BATCH_SIZE] at he
        omega
      · intro _
        simp [track, BATCH_SIZE]
        omega
      · intro hi
        simp [track] at hi
        refine ⟨by simpa [isLoggedIn, track] using (a5 hi).1, ?_⟩
        simp [track, BATCH_SIZE]
        omega
    · have hrem : 0 < s.cards.length - s.cardIndex := by
        unfold remainingCards at hmore
        rw [if_neg] at hmore
        · exact hmore
        · rw [Bool.not_eq_true]
          simp only [track] at hlog
          exact Bool.eq_false_iff.mpr hlog
      refine ⟨by simpa [track] using a1, by simp, ?_, ?_, ?_⟩
      · intro he hp
        exfalso
        simp [track, BATCH_SIZE] at he
        omega
      · intro _
        simp [track, BATCH_SIZE]
        omega
      · intro hi
        simp [track] at hi
        refine ⟨by simpa [isLoggedIn, track] using (a5 hi).1, ?_⟩
        simp [track, BATCH_SIZE]
        omega

lemma invA_modeChange (m : Mode) (s : SessionState) (h : InvA s)
    (hsafe : s.isSubmitting = false) : InvA (modeChangeBody m s) := by
  obtain ⟨a1, a2, a3, a4, a5⟩ := h
  have hinf : s.inFlight.isSome = false := a1.symm.trans hsafe
  unfold modeChangeBody; dsimp only
  split
  · exact ⟨a1, a2, a3, a4, a5⟩
  · apply invA_applyCardWatch
    apply invA_watchCards
    · simpa using a1
    · simp
    · intro he hp; simp at hp
    · intro hi; simp at hi; rw [hi] at hinf; exact Bool.noConfusion hinf

lemma invA_cardsArrive (newCards : List StudyCard) (s : SessionState)
    (h : InvA s) : InvA (cardsArrive newCards s) := by
  obtain ⟨a1, a2, a3, a4, a5⟩ := h
  unfold cardsArrive; dsimp only
  apply invA_applyCardWatch
  apply invA_watchCards
  · simpa using a1
  · simpa using a2
  · intro he hp; simp at he hp ⊢; exact a3 he hp
  · intro hi; simp at hi
    obtain ⟨hl, hlt⟩ := a5 hi
    exact ⟨by simpa [isLoggedIn] using hl, by simpa using hlt⟩

lemma invA_init (cards0 : List StudyCard) (mode0 : Mode)
    (user0 tok0 : Option String) : InvA (initState cards0 mode0 user0 tok0) := by
  unfold initState
  apply invA_watchCards
  · rfl
  · exact Nat.le_refl 0
  · intro _ hp; simp at hp
  · intro hi; simp at hi

lemma invA_step (op : Op) (s s' : SessionState)
    (hstep : step op s = some s')
    (hsafe : ∀ m, op = Op.modeChange m → s.isSubmitting = false)
    (h : InvA s) : InvA s' := by
  cases op with
  | tick d =>
    simp only [step, Option.some.injEq] at hstep; subst hstep
    exact invA_transfer _ _ h rfl rfl rfl rfl rfl rfl (fun hx => hx)
  | timerFire id =>
    cases hfind : s.pendingTimers.find? (fun e => e.1 == id) with
    | none =>
      simp only [step, hfind] at hstep
      exact Option.noConfusion hstep
    | some e =>
      simp only [step, hfind] at hstep
      split at hstep
      · cases hstep
        exact invA_transfer _ _ h rfl rfl rfl rfl rfl rfl (fun hx => hx)
      · exact Option.noConfusion hstep
  | flip =>
    simp only [step] at hstep; split at hstep
    · cases hstep; exact invA_flipCard s h
    · exact Option.noConfusion hstep
  | next =>
    simp only [step] at hstep; split at hstep
    · rename_i hg
      cases hstep
      exact invA_nextCard s h hg.2.2.2 hg.2.1
    · exact Option.noConfusion hstep
  | submitBegin g =>
    simp only [step] at hstep; split at hstep
    · rename_i hg
      cases hstep
      exact invA_recordResponse g s h hg.2.1
    · exact Option.noConfusion hstep
  | submitSuccess newCards =>
    simp only [step] at hstep; split at hstep
    · rename_i hg
      cases hstep
      exact invA_submitSuccess newCards s h hg
    · exact Option.noConfusion hstep
  | submitFail401 =>
    simp only [step] at hstep; split at hstep
    · cases hstep; exact invA_fail401 s h
    · exact Option.noConfusion hstep
  | submitFailOther =>
    simp only [step] at hstep; split at hstep
    · cases hstep; exact invA_failOther s h
    · exact Option.noConfusion hstep
  | keepGoingOp =>
    simp only [step] at hstep; split at hstep
    · rename_i hg
      cases hstep
      exact invA_keepGoing s h hg.2.2
    · exact Option.noConfusion hstep
  | finishUser =>
    simp only [step] at hstep; split at hstep
    · cases hstep; exact invA_finish .userEnded s h
    · exact Option.noConfusion hstep
  | modeChange m =>
    simp only [step] at hstep; split at hstep
    · cases hstep; exact invA_modeChange m s h (hsafe m rfl)
    · exact Option.noConfusion hstep
  | cardsArriveOp newCards =>
    simp only [step] at hstep; split at hstep
    · cases hstep; exact invA_cardsArrive newCards s h
    · exact Option.noConfusion hstep
  | unmount =>
    simp only [step] at hstep; split at hstep
    · cases hstep; exact invA_unmount s h
    · exact Option.noConfusion hstep

/-- The batch invariant holds along every mode-change-safe trace. -/
lemma reachSafe_invA (s : SessionState) (h : ReachSafe s) : InvA s := by
  induction h with
  | init cards0 mode0 user0 tok0 => exact invA_init cards0 mode0 user0 tok0
  | step t op t' _ hstep hsafe ih => exact invA_step op t t' hstep hsafe ih

/-! ## Batch-counter bookkeeping per operation -/

lemma flipCard_batchCounter (s : SessionState) :
    (flipCard s).cardsReviewedInBatch = s.cardsReviewedInBatch := by
  unfold flipCard; dsimp only; split <;> simp [track]

lemma recordResponse_batchCounter (g : Grade) (s : SessionState) :
    (recordResponse g s).cardsReviewedInBatch = s.cardsReviewedInBatch := by
  unfold recordResponse
  cases card s with
  | none => rfl
  | some c => dsimp only; split <;> simp [track]

lemma fail401_batchCounter (s : SessionState) :
    (submitResolveFail401 s).cardsReviewedInBatch = s.cardsReviewedInBatch := by
  unfold submitResolveFail401; dsimp only; split <;> simp [logout]

lemma keepGoing_batchCounter (s : SessionState) :
    (keepGoing s).cardsReviewedInBatch = 0 := by
  unfold keepGoing; dsimp only
  rw [applyCardWatch_batch]
  split <;> (try split) <;> simp [track]

lemma modeChange_batchCounter (m : Mode) (s : SessionState) :
    (modeChangeBody m s).cardsReviewedInBatch =
      (if m = s.mode then s.cardsReviewedInBatch else 0) := by
  unfold modeChangeBody; dsimp only
  split <;> simp_all

lemma cardsArrive_batchCounter (newCards : List StudyCard) (s : SessionState) :
    (cardsArrive newCards s).cardsReviewedInBatch = s.cardsReviewedInBatch := by
  unfold cardsArrive; dsimp only; simp

lemma nextCard_batchCounter (s : SessionState) :
    (nextCard s).cardsReviewedInBatch = s.cardsReviewedInBatch + 1 := by
  unfold nextCard; dsimp only
  rw [applyCardWatch_batch]
  split <;> split <;> simp

lemma nextCard_batchSize (s : SessionState) :
    (nextCard s).currentBatchSize = s.currentBatchSize := by
  unfold nextCard; dsimp only
  rw [applyCardWatch_batchSize]
  split <;> split <;> simp

lemma submitSuccess_batchCounter (newCards : List StudyCard) (s : SessionState) :
    (submitResolveSuccess newCards s).cardsReviewedInBatch =
      s.cardsReviewedInBatch + 1 := by
  unfold submitResolveSuccess; dsimp only
  split <;> split <;> simp

/-- Any operation that increments `cardsReviewedInBatch` up to
`currentBatchSize` leaves `sessionFinished = true` (the `if
(cardsReviewedInBatch >= currentBatchSize) sessionFinished = true` checks
in `nextCard` and `recordResponse`). -/
lemma incr_reaches_finished (op : Op) (s s' : SessionState)
    (hstep : step op s = some s')
    (hinc : s.cardsReviewedInBatch < s'.cardsReviewedInBatch)
    (heq : s'.cardsReviewedInBatch = s'.currentBatchSize) :
    s'.sessionFinished = true := by
  cases op with
  | tick d =>
    simp only [step, Option.some.injEq] at hstep; subst hstep
    simp at hinc
  | timerFire id =>
    cases hfind : s.pendingTimers.find? (fun e => e.1 == id) with
    | none =>
      simp only [step, hfind] at hstep
      exact Option.noConfusion hstep
    | some e =>
      simp only [step, hfind] at hstep
      split at hstep
      · cases hstep; simp [timerFireBody] at hinc
      · exact Option.noConfusion hstep
  | flip =>
    simp only [step] at hstep; split at hstep
    · cases hstep; rw [flipCard_batchCounter] at hinc; omega
    · exact Option.noConfusion hstep
  | next =>
    simp only [step] at hstep; split at hstep
    · cases hstep
      rw [nextCard_batchCounter, nextCard_batchSize] at heq
      have hfin : s.currentBatchSize ≤ s.cardsReviewedInBatch + 1 := by omega
      unfold nextCard; dsimp only
      apply applyCardWatch_finished_mono
      split
      · split
        · simp
        · rfl
      · rename_i hcond
        exact absurd hfin (by simpa using hcond)
    · exact Option.noConfusion hstep
  | submitBegin g =>
    simp only [step] at hstep; split at hstep
    · cases hstep; rw [recordResponse_batchCounter] at hinc; omega
    · exact Option.noConfusion hstep
  | submitSuccess newCards =>
    simp only [step] at hstep; split at hstep
    · cases hstep
      by_cases hc2 : s.currentBatchSize ≤ s.cardsReviewedInBatch + 1
      · unfold submitResolveSuccess; dsimp only
        rw [if_pos hc2]
        split
        · apply applyCardWatch_finished_mono
          simp only [watchCardsBody_finished]
          apply applyCardWatch_finished_mono
          rfl
        · apply applyCardWatch_finished_mono
          rfl
      · exfalso
        have hnz : ¬((s.currentBatchSize : Nat) = 0) := by omega
        have hbs : (submitResolveSuccess newCards s).currentBatchSize =
            s.currentBatchSize := by
          unfold submitResolveSuccess; dsimp only
          rw [if_neg hc2]
          split <;> simp [watchCardsBody_batchSize, hnz]
        rw [submitSuccess_batchCounter, hbs] at heq
        omega
    · exact Option.noConfusion hstep
  | submitFail401 =>
    simp only [step] at hstep; split at hstep
    · cases hstep; rw [fail401_batchCounter] at hinc; omega
    · exact Option.noConfusion hstep
  | submitFailOther =>
    simp only [step] at hstep; split at hstep
    · cases hstep; exact absurd hinc (by simp [submitResolveFailOther])
    · exact Option.noConfusion hstep
  | keepGoingOp =>
    simp only [step] at hstep; split at hstep
    · cases hstep; rw [keepGoing_batchCounter] at hinc; omega
    · exact Option.noConfusion hstep
  | finishUser =>
    simp only [step] at hstep; split at hstep
    · cases hstep; rw [finishSession_batch] at hinc; omega
    · exact Option.noConfusion hstep
  | modeChange m =>
    simp only [step] at hstep; split at hstep
    · cases hstep
      rw [modeChange_batchCounter] at hinc
      split at hinc <;> omega
    · exact Option.noConfusion hstep
  | cardsArriveOp newCards =>
    simp only [step] at hstep; split at hstep
    · cases hstep; rw [cardsArrive_batchCounter] at hinc; omega
    · exact Option.noConfusion hstep
  | unmount =>
    simp only [step] at hstep; split at hstep
    · cases hstep; rw [unmountBody_batch] at hinc; omega
    · exact Option.noConfusion hstep

/-! ## Which transitions can enable the grading buttons -/

lemma flipCard_buttonsEnabled (s : SessionState) :
    (flipCard s).buttonsEnabled = false := by
  unfold flipCard; dsimp only
  split <;> simp [track]

lemma applyCardWatch_buttonsEnabled_cases (p q : SessionState) :
    (applyCardWatch p q).buttonsEnabled = false ∨
      (applyCardWatch p q).buttonsEnabled = q.buttonsEnabled := by
  unfold applyCardWatch; split
  · rw [watchCardBody_buttonsEnabled]
    split
    · exact Or.inl rfl
    · exact Or.inr rfl
  · exact Or.inr rfl

lemma buttonsEnabled_cases_trans (p q : SessionState) (x : Bool)
    (hq : q.buttonsEnabled = false ∨ q.buttonsEnabled = x) :
    (applyCardWatch p q).buttonsEnabled = false ∨
      (applyCardWatch p q).buttonsEnabled = x := by
  rcases applyCardWatch_buttonsEnabled_cases p q with h | h
  · exact Or.inl h
  · rcases hq with hq | hq
    · exact Or.inl (h.trans hq)
    · exact Or.inr (h.trans hq)

lemma nextCard_buttonsEnabled_cases (s : SessionState) :
    (nextCard s).buttonsEnabled = false ∨
      (nextCard s).buttonsEnabled = s.buttonsEnabled := by
  unfold nextCard; dsimp only
  apply buttonsEnabled_cases_trans
  repeat' split
  all_goals simp

lemma recordResponse_buttonsEnabled (g : Grade) (s : SessionState) :
    (recordResponse g s).buttonsEnabled = s.buttonsEnabled := by
  unfold recordResponse
  cases card s with
  | none => rfl
  | some c => dsimp only; split <;> simp [track]

lemma submitSuccess_buttonsEnabled_cases (newCards : List StudyCard)
    (s : SessionState) :
    (submitResolveSuccess newCards s).buttonsEnabled = false ∨
      (submitResolveSuccess newCards s).buttonsEnabled = s.buttonsEnabled := by
  unfold submitResolveSuccess; dsimp only
  split <;> split
  all_goals
    first
      | (apply buttonsEnabled_cases_trans
         rw [watchCardsBody_buttonsEnabled]
         (try dsimp only)
         apply buttonsEnabled_cases_trans
         exact Or.inr rfl)
      | ((try dsimp only)
         apply buttonsEnabled_cases_trans
         exact Or.inr rfl)

lemma fail401_buttonsEnabled (s : SessionState) :
    (submitResolveFail401 s).buttonsEnabled = s.buttonsEnabled := by
  unfold submitResolveFail401; dsimp only
  split <;> simp [logout]

lemma failOther_buttonsEnabled (s : SessionState) :
    (submitResolveFailOther s).buttonsEnabled = s.buttonsEnabled := rfl

lemma keepGoing_buttonsEnabled_cases (s : SessionState) :
    (keepGoing s).buttonsEnabled = false ∨
      (keepGoing s).buttonsEnabled = s.buttonsEnabled := by
  unfold keepGoing; dsimp only
  apply buttonsEnabled_cases_trans
  repeat' split
  all_goals simp [track]

lemma modeChange_buttonsEnabled_cases (m : Mode) (s : SessionState) :
    (modeChangeBody m s).buttonsEnabled = false ∨
      (modeChangeBody m s).buttonsEnabled = s.buttonsEnabled := by
  unfold modeChangeBody; dsimp only
  split
  · exact Or.inr rfl
  · apply buttonsEnabled_cases_trans
    simp

lemma cardsArrive_buttonsEnabled_cases (newCards : List StudyCard)
    (s : SessionState) :
    (cardsArrive newCards s).buttonsEnabled = false ∨
      (cardsArrive newCards s).buttonsEnabled = s.buttonsEnabled := by
  unfold cardsArrive; dsimp only
  apply buttonsEnabled_cases_trans
  simp

/-! ## Batch-size establishment -/

lemma initState_batchSize (cards0 : List StudyCard) (mode0 : Mode)
    (user0 tok0 : Option String) :
    (initState cards0 mode0 user0 tok0).currentBatchSize =
      (if mode0 = Mode.due then cards0.length
       else min BATCH_SIZE cards0.length) := by
  unfold initState
  rw [watchCardsBody_batchSize]
  simp

lemma keepGoing_batchSize (s : SessionState) :
    (keepGoing s).currentBatchSize =
      (if s.mode = Mode.due then s.cards.length
       else if isLoggedIn s then min BATCH_SIZE s.cards.length
       else min BATCH_SIZE (s.cards.length - s.cardIndex)) := by
  unfold keepGoing track isLoggedIn; dsimp only
  simp only [applyCardWatch_batchSize]
  by_cases h1 : s.mode = Mode.due
  · simp [h1]
  · by_cases h2 : s.user.isSome = true
    · simp [h1, h2]
    · simp [h1, h2]

/-! ## The analytics buffer (`useAnalytics.ts`) -/

/-- `flush` from `useAnalytics.ts`, one invocation, functionally: `buffer`
is the queue when `flush` starts, `during` the events `track`ed while the
POST is awaited, `ok` whether the POST succeeded.  Returns the queue after
the invocation together with the list of events POSTed (empty when the
early-return for an empty buffer fires).  The source splices the whole
buffer out, POSTs it, and on failure `unshift`s the spliced events back to
the front — ahead of anything tracked during the await. -/
def flush {α : Type} (buffer during : List α) (ok : Bool) :
    List α × List α :=
  if buffer.isEmpty then (during, [])
  else if ok then (during, buffer)
  else (buffer ++ during, buffer)

/-! ## The new/reviewed concept breakdown (`useStudySession.ts`) -/

/-- JavaScript `Math.round` on the non-negative rational `num / den`:
round half up, `⌊(num + den/2) / den⌋ = ⌊(2·num + den) / (2·den)⌋`. -/
def jsRound (num den : Nat) : Nat := (2 * num + den) / (2 * den)

/-- The `newConceptsInSession` computed: a ratio-based estimate
`Math.round(cardsReviewedInSession * categoryNewCount / total)` with
`total = categoryNewCount + categoryDueCount`, and `0` when the total is
zero. -/
def newConceptsInSession
    (categoryNewCount categoryDueCount cardsReviewedInSession : Nat) : Nat :=
  let total := categoryNewCount + categoryDueCount
  if total = 0 then 0
  else jsRound (cardsReviewedInSession * categoryNewCount) total

/-- The `reviewedConceptsInSession` computed:
`cardsReviewedInSession - newConceptsInSession`, over ℤ since JavaScript
subtraction is not truncated. -/
def reviewedConceptsInSession
    (categoryNewCount categoryDueCount cardsReviewedInSession : Nat) : Int :=
  (cardsReviewedInSession : Int) -
    (newConceptsInSession categoryNewCount categoryDueCount
      cardsReviewedInSession : Int)

lemma jsRound_le (num den q : Nat) (h : num ≤ q * den) (hd : 0 < den) :
    jsRound num den ≤ q := by
  have hlt : (2 * num + den) / (2 * den) < q + 1 := by
    rw [Nat.div_lt_iff_lt_mul (by omega)]
    nlinarith [h, hd]
  unfold jsRound
  omega

/-! ## Concrete traces used as witnesses and counterexamples -/

/-- `n` distinct cards with ids `0 … n-1`. -/
def mkCards (n : Nat) : List StudyCard :=
  (List.range n).map (fun i => ⟨i, "", ""⟩)

/-- An anonymous `all`-mode session over 11 fetched cards: ten
flip-and-next pairs exhaust the first batch of 10, then `keepGoing`. -/
def c1Trace : List Op :=
  (List.replicate 10 [Op.flip, Op.next]).flatten ++ [Op.keepGoingOp]

def c1Start : SessionState := initState (mkCards 11) Mode.all none none

def c1Mid : SessionState :=
  ((runOps (List.replicate 10 [Op.flip, Op.next]).flatten c1Start).getD default)

def c1End : SessionState := (runOps c1Trace c1Start).getD default

/-- A logged-in `all`-mode session over one card: reveal, wait 400 ms,
grade; while the POST is in flight the mode changes; then the POST
resolves successfully with an empty refreshed list. -/
def c2Trace : List Op :=
  [Op.flip, Op.tick 400, Op.timerFire 0, Op.submitBegin Grade.good,
   Op.modeChange Mode.new, Op.submitSuccess []]

def c2Start : SessionState := initState (mkCards 1) Mode.all (some "u") (some "t")

def c2End : SessionState := (runOps c2Trace c2Start).getD default

/-- An anonymous one-card session for the C2 witness: the single next
fills the batch. -/
def c2wStart : SessionState := initState (mkCards 1) Mode.all none none

def c2wMid : SessionState := (runOps [Op.flip] c2wStart).getD default

def c2wEnd : SessionState := (runOps [Op.flip, Op.next] c2wStart).getD default

/-- A logged-in one-card session brought to the in-flight submission
state: reveal, wait out the debounce, grade. -/
def c6Start : SessionState :=
  initState [⟨7, "", ""⟩] Mode.all (some "u") (some "t")

def c6Trace : List Op :=
  [Op.flip, Op.tick 400, Op.timerFire 0, Op.submitBegin Grade.easy]

def c6Mid : SessionState := (runOps c6Trace c6Start).getD default

def c6End : SessionState := (step Op.submitFail401 c6Mid).getD default

def c6After : SessionState := (runOps [Op.tick 5] c6End).getD default

def c6Other : SessionState := (step Op.submitFailOther c6Mid).getD default

def c3Start : SessionState := initState (mkCards 1) Mode.all none none

def c3End : SessionState := (step Op.unmount c3Start).getD default

def c5Start : SessionState := initState (mkCards 1) Mode.all none none

def c5Revealed : SessionState := flipCard c5Start

/-- An anonymous 2-card `all`-mode session: flip at t = 0 (arming timeout 0
for t = 400), advance to t = 100, press Next — which resets `revealed`
without cancelling timeout 0 — flip the next card at t = 150 (arming
timeout 1 for t = 550), flip it straight back (cancelling only timeout 1,
the one `buttonsTimer` references), and advance to t = 400. -/
def c5cexStart : SessionState := initState (mkCards 2) Mode.all none none

def c5cexPre : SessionState :=
  (runOps [Op.flip, Op.tick 100, Op.next, Op.tick 50, Op.flip, Op.flip,
           Op.tick 250] c5cexStart).getD default

/-- The state after the orphaned timeout 0 fires at t = 400. -/
def c5cexEnd : SessionState := (step (Op.timerFire 0) c5cexPre).getD default

def c8Start : SessionState := initState [⟨7, "", ""⟩] Mode.all (some "u") none

/-! ## Claim theorems -/

/-- C1 (amended): when a batch is established, `currentBatchSize` is the
full fetched count in `due` mode and `min(10, fetched count)` in
`new`/`all` mode at the initial fetch and, in `keepGoing`, for logged-in
users; for anonymous users `keepGoing` instead uses
`min(10, fetched count - cardIndex)` — the cards remaining after the local
browsing index — which can be smaller than `min(10, fetched count)`. -/
theorem useStudySession_batchSize_establishment :
    (∀ (cards0 : List StudyCard) (mode0 : Mode) (user0 tok0 : Option String),
      (initState cards0 mode0 user0 tok0).currentBatchSize =
        (if mode0 = Mode.due then cards0.length
         else min BATCH_SIZE cards0.length)) ∧
    (∀ s s' : SessionState, step Op.keepGoingOp s = some s' →
      s'.currentBatchSize =
        (if s.mode = Mode.due then s.cards.length
         else if isLoggedIn s then min BATCH_SIZE s.cards.length
         else min BATCH_SIZE (s.cards.length - s.cardIndex))) := by
  constructor
  · exact initState_batchSize
  · intro s s' hstep
    simp only [step] at hstep
    split at hstep
    · cases hstep; exact keepGoing_batchSize s
    · exact Option.noConfusion hstep

/-- C1 witness: the establishment equations at concrete states — a fresh
3-card `due` session, and the `keepGoing` step of the 11-card anonymous
trace. -/
theorem useStudySession_batchSize_establishment_witness :
    (initState (mkCards 3) Mode.due (some "u") none).currentBatchSize =
      (if Mode.due = Mode.due then (mkCards 3).length
       else min BATCH_SIZE (mkCards 3).length) ∧
    c1End.currentBatchSize =
      (if c1Mid.mode = Mode.due then c1Mid.cards.length
       else if isLoggedIn c1Mid then min BATCH_SIZE c1Mid.cards.length
       else min BATCH_SIZE (c1Mid.cards.length - c1Mid.cardIndex)) :=
  ⟨useStudySession_batchSize_establishment.1 (mkCards 3) Mode.due (some "u") none,
   useStudySession_batchSize_establishment.2 c1Mid c1End rfl⟩

/-- C1 counterexample: in the reachable state `c1End` — an anonymous
`all`-mode session over 11 fetched cards, right after `keepGoing`
established a new batch — `currentBatchSize` is `1`, not
`min(10, 11) = 10` as the claim states for `all` mode. -/
theorem useStudySession_batchSize_counterexample :
    runOps c1Trace c1Start = some c1End ∧
    Reach c1End ∧
    c1End.mode = Mode.all ∧
    c1End.cards.length = 11 ∧
    c1End.currentBatchSize = 1 ∧
    min BATCH_SIZE c1End.cards.length = 10 ∧
    c1End.currentBatchSize ≠ min BATCH_SIZE c1End.cards.length := by
  refine ⟨rfl, ?_, rfl, rfl, rfl, rfl, by decide⟩
  exact runOps_reach c1Trace c1Start c1End (Reach.init (mkCards 11) Mode.all none none) rfl

/-- C2 (amended): along every trace in which the mode is never changed
while a submission is in flight (`ReachSafe` — the shipped category page
only sets the mode before a session starts), every reachable state
satisfies `cardsReviewedInBatch ≤ currentBatchSize`; and, over all traces,
any transition that increments `cardsReviewedInBatch` up to
`currentBatchSize` sets `sessionFinished`. -/
theorem useStudySession_batch_invariant :
    (∀ s : SessionState, ReachSafe s →
      s.cardsReviewedInBatch ≤ s.currentBatchSize) ∧
    (∀ (op : Op) (s s' : SessionState), step op s = some s' →
      s.cardsReviewedInBatch < s'.cardsReviewedInBatch →
      s'.cardsReviewedInBatch = s'.currentBatchSize →
      s'.sessionFinished = true) := by
  constructor
  · intro s h
    exact (reachSafe_invA s h).2.1
  · exact incr_reaches_finished

/-- C2 witness: the inequality at a fresh two-card anonymous session, and
the finish flag after the `next` that fills the one-card batch of
`c2wMid`. -/
theorem useStudySession_batch_invariant_witness :
    (initState (mkCards 2) Mode.all none none).cardsReviewedInBatch ≤
      (initState (mkCards 2) Mode.all none none).currentBatchSize ∧
    c2wEnd.sessionFinished = true :=
  ⟨useStudySession_batch_invariant.1 _
     (ReachSafe.init (mkCards 2) Mode.all none none),
   useStudySession_batch_invariant.2 Op.next c2wMid c2wEnd rfl (by decide)
     (by decide)⟩

/-- C2 counterexample: the claim quantifies over all operation sequences,
including a mode change while a `recordResponse` is in flight.  In the
reachable state `c2End` — mode changed to `new` during the in-flight
submission, which then resolved — `cardsReviewedInBatch = 1` exceeds
`currentBatchSize = 0`. -/
theorem useStudySession_batch_invariant_counterexample :
    runOps c2Trace c2Start = some c2End ∧
    Reach c2End ∧
    c2End.cardsReviewedInBatch = 1 ∧
    c2End.currentBatchSize = 0 ∧
    ¬(c2End.cardsReviewedInBatch ≤ c2End.currentBatchSize) := by
  refine ⟨rfl, ?_, rfl, rfl, by decide⟩
  exact runOps_reach c2Trace c2Start c2End
    (Reach.init (mkCards 1) Mode.all (some "u") (some "t")) rfl

/-- C3 (confirmed): in every reachable state the event log holds exactly
one `session_end` event iff `sessionEndEmitted` is set (so never more than
one); the flag is never cleared; it is set after an unmount (navigation
away), after an explicit `finishSession('user_ended')`, and by every
`finishSession` call (natural completion runs `finishSession('completed')`
via the card watcher).  Together: however many of the exit paths occur, in
any order, exactly one `session_end` is emitted. -/
theorem useStudySession_sessionEnd_exactly_once :
    (∀ s : SessionState, Reach s →
      countSE s.events = (if s.sessionEndEmitted then 1 else 0)) ∧
    (∀ (op : Op) (s s' : SessionState), step op s = some s' →
      s.sessionEndEmitted = true → s'.sessionEndEmitted = true) ∧
    (∀ s s' : SessionState, step Op.unmount s = some s' →
      s'.sessionEndEmitted = true) ∧
    (∀ s s' : SessionState, step Op.finishUser s = some s' →
      s'.sessionEndEmitted = true) ∧
    (∀ (r : EndReason) (s : SessionState),
      (finishSession r s).sessionEndEmitted = true) := by
  refine ⟨?_, emitted_mono_step, ?_, ?_, ?_⟩
  · intro s h
    exact (reach_invF s h).1
  · intro s s' hstep
    simp only [step] at hstep
    split at hstep
    · cases hstep; simp
    · exact Option.noConfusion hstep
  · intro s s' hstep
    simp only [step] at hstep
    split at hstep
    · cases hstep; simp
    · exact Option.noConfusion hstep
  · intro r s
    simp

/-- C3 witness: the count/flag equation at a fresh session, and the flag
after an unmount step from it. -/
theorem useStudySession_sessionEnd_exactly_once_witness :
    countSE c3Start.events =
      (if c3Start.sessionEndEmitted then 1 else 0) ∧
    c3End.sessionEndEmitted = true :=
  ⟨useStudySession_sessionEnd_exactly_once.1 c3Start
     (Reach.init (mkCards 1) Mode.all none none),
   useStudySession_sessionEnd_exactly_once.2.2.1 c3Start c3End rfl⟩

/-- C4 (confirmed): a `recordResponse` call while `isSubmitting` is true
returns at the guard — the state (including the POST log) is unchanged, so
no second review POST is issued; and in every reachable state
`isSubmitting` mirrors the in-flight request, which only the resolution of
the first request clears, so a second request can only be issued after the
first resolves. -/
theorem useStudySession_recordResponse_inflight_guard :
    (∀ (g : Grade) (s : SessionState), s.isSubmitting = true →
      recordResponse g s = s) ∧
    (∀ s : SessionState, Reach s → s.isSubmitting = s.inFlight.isSome) := by
  constructor
  · intro g s h
    unfold recordResponse
    cases card s with
    | none => rfl
    | some c =>
      dsimp only
      rw [if_pos h]
  · intro s hr
    exact (reach_invF s hr).2

/-- C4 witness: at the in-flight state `c6Mid`, a second `recordResponse`
is the identity, and the flag equation holds there. -/
theorem useStudySession_recordResponse_inflight_guard_witness :
    recordResponse Grade.good c6Mid = c6Mid ∧
    c6Mid.isSubmitting = c6Mid.inFlight.isSome :=
  ⟨useStudySession_recordResponse_inflight_guard.1 Grade.good c6Mid (by decide),
   useStudySession_recordResponse_inflight_guard.2 c6Mid
     (runOps_reach c6Trace c6Start c6Mid
       (Reach.init [⟨7, "", ""⟩] Mode.all (some "u") (some "t")) rfl)⟩

/-- C5 (corrected): `flipCard` toggles `revealed` on every call and every
call leaves `buttonsEnabled = false`; a flip back to the front cancels the
timeout referenced by the `buttonsTimer` variable — the most recently
armed one — and nulls the variable; a flip to the back records the reveal
time and arms a fresh 400 ms timeout for `now + 400`, without cancelling a
previously pending one; and `buttonsEnabled` can become true only when
some pending timeout fires, at or after its deadline — i.e. at least
400 ms after the reveal that armed it, but (as the counterexample shows)
possibly fewer than 400 ms after the latest transition to revealed, since
`nextCard`/`keepGoing` reset `revealed` without cancelling the pending
timeout. -/
theorem useStudySession_flip_reveal_debounce :
    (∀ s : SessionState, (flipCard s).revealed = !s.revealed) ∧
    (∀ s : SessionState, (flipCard s).buttonsEnabled = false) ∧
    (∀ s : SessionState, s.revealed = true →
      (flipCard s).buttonsTimer = none ∧
      (flipCard s).pendingTimers = clearTimeout s.buttonsTimer s.pendingTimers) ∧
    (∀ s : SessionState, s.revealed = false →
      (flipCard s).buttonsTimer = some s.nextTimerId ∧
      (flipCard s).pendingTimers =
        s.pendingTimers ++ [(s.nextTimerId, s.now + 400)] ∧
      (flipCard s).flipTime = s.now) ∧
    (∀ (op : Op) (s s' : SessionState), step op s = some s' →
      s.buttonsEnabled = false → s'.buttonsEnabled = true →
      ∃ id d, op = Op.timerFire id ∧ (id, d) ∈ s.pendingTimers ∧ d ≤ s.now) := by
  refine ⟨?_, ?_, ?_, ?_, ?_⟩
  · intro s
    unfold flipCard; dsimp only
    split <;> simp [track]
  · exact flipCard_buttonsEnabled
  · intro s h
    unfold flipCard; dsimp only
    split <;> simp_all [track]
  · intro s h
    unfold flipCard; dsimp only
    split <;> simp_all [track]
  · intro op s s' hstep hoff hon
    cases op with
    | timerFire id =>
      cases hfind : s.pendingTimers.find? (fun e => e.1 == id) with
      | none =>
        simp only [step, hfind] at hstep
        exact Option.noConfusion hstep
      | some e =>
        simp only [step, hfind] at hstep
        split at hstep
        · rename_i hle
          have hmem := List.mem_of_find?_eq_some hfind
          have hid : e.1 = id := by simpa using List.find?_some hfind
          exact ⟨id, e.2, rfl, by rw [← hid]; simpa using hmem, hle⟩
        · exact Option.noConfusion hstep
    | tick d =>
      simp only [step, Option.some.injEq] at hstep
      subst hstep
      rw [hoff] at hon
      exact Bool.noConfusion hon
    | flip =>
      simp only [step] at hstep; split at hstep
      · cases hstep
        rw [flipCard_buttonsEnabled] at hon
        exact Bool.noConfusion hon
      · exact Option.noConfusion hstep
    | next =>
      simp only [step] at hstep; split at hstep
      · cases hstep
        rcases nextCard_buttonsEnabled_cases s with h | h <;> rw [h] at hon
        · exact Bool.noConfusion hon
        · rw [hoff] at hon; exact Bool.noConfusion hon
      · exact Option.noConfusion hstep
    | submitBegin g =>
      simp only [step] at hstep; split at hstep
      · cases hstep
        rw [recordResponse_buttonsEnabled, hoff] at hon
        exact Bool.noConfusion hon
      · exact Option.noConfusion hstep
    | submitSuccess newCards =>
      simp only [step] at hstep; split at hstep
      · cases hstep
        rcases submitSuccess_buttonsEnabled_cases newCards s with h | h <;>
          rw [h] at hon
        · exact Bool.noConfusion hon
        · rw [hoff] at hon; exact Bool.noConfusion hon
      · exact Option.noConfusion hstep
    | submitFail401 =>
      simp only [step] at hstep; split at hstep
      · cases hstep
        rw [fail401_buttonsEnabled, hoff] at hon
        exact Bool.noConfusion hon
      · exact Option.noConfusion hstep
    | submitFailOther =>
      simp only [step] at hstep; split at hstep
      · cases hstep
        rw [failOther_buttonsEnabled, hoff] at hon
        exact Bool.noConfusion hon
      · exact Option.noConfusion hstep
    | keepGoingOp =>
      simp only [step] at hstep; split at hstep
      · cases hstep
        rcases keepGoing_buttonsEnabled_cases s with h | h <;> rw [h] at hon
        · exact Bool.noConfusion hon
        · rw [hoff] at hon; exact Bool.noConfusion hon
      · exact Option.noConfusion hstep
    | finishUser =>
      simp only [step] at hstep; split at hstep
      · cases hstep
        rw [finishSession_buttonsEnabled, hoff] at hon
        exact Bool.noConfusion hon
      · exact Option.noConfusion hstep
    | modeChange m =>
      simp only [step] at hstep; split at hstep
      · cases hstep
        rcases modeChange_buttonsEnabled_cases m s with h | h <;> rw [h] at hon
        · exact Bool.noConfusion hon
        · rw [hoff] at hon; exact Bool.noConfusion hon
      · exact Option.noConfusion hstep
    | cardsArriveOp newCards =>
      simp only [step] at hstep; split at hstep
      · cases hstep
        rcases cardsArrive_buttonsEnabled_cases newCards s with h | h <;>
          rw [h] at hon
        · exact Bool.noConfusion hon
        · rw [hoff] at hon; exact Bool.noConfusion hon
      · exact Option.noConfusion hstep
    | unmount =>
      simp only [step] at hstep; split at hstep
      · cases hstep
        rw [unmountBody_buttonsEnabled, hoff] at hon
        exact Bool.noConfusion hon
      · exact Option.noConfusion hstep

/-- C5 witness: the toggle and the 400 ms arming on revealing a fresh
card, and the cancel of the referenced timeout on flipping back. -/
theorem useStudySession_flip_reveal_debounce_witness :
    (flipCard c5Start).revealed = !c5Start.revealed ∧
    ((flipCard c5Revealed).buttonsTimer = none ∧
      (flipCard c5Revealed).pendingTimers =
        clearTimeout c5Revealed.buttonsTimer c5Revealed.pendingTimers) ∧
    ((flipCard c5Start).buttonsTimer = some c5Start.nextTimerId ∧
      (flipCard c5Start).pendingTimers =
        c5Start.pendingTimers ++ [(c5Start.nextTimerId, c5Start.now + 400)] ∧
      (flipCard c5Start).flipTime = c5Start.now) :=
  ⟨useStudySession_flip_reveal_debounce.1 c5Start,
   useStudySession_flip_reveal_debounce.2.2.1 c5Revealed (by decide),
   useStudySession_flip_reveal_debounce.2.2.2.1 c5Start (by decide)⟩

/-- C5 counterexample: in the reachable state `c5cexEnd` — flip at t = 0,
Next at t = 100, flip at t = 150, flip back at t = 150, orphaned timeout
fires at t = 400 — the buttons are enabled on the front of a card after a
flip back (so the flip-back did not cancel every pending enable timer),
and fewer than 400 ms after the latest transition to revealed
(`flipTime = 150`, `now = 400`). -/
theorem useStudySession_flip_reveal_debounce_counterexample :
    Reach c5cexEnd ∧
    c5cexEnd.buttonsEnabled = true ∧
    c5cexEnd.revealed = false ∧
    c5cexEnd.now < c5cexEnd.flipTime + 400 := by
  refine ⟨?_, by decide, by decide, by decide⟩
  exact Reach.step c5cexPre (Op.timerFire 0) c5cexEnd
    (runOps_reach [Op.flip, Op.tick 100, Op.next, Op.tick 50, Op.flip, Op.flip,
        Op.tick 250] c5cexStart c5cexPre
      (Reach.init (mkCards 2) Mode.all none none) rfl)
    rfl

/-- C6 (confirmed): resolving the review POST with a 401 clears the token
cookie and the user profile (`logout`) and redirects — unmounting the
component — with the submit flag cleared; from any unmounted state no
sequence of transitions ever grows the POST log, so no further grade
submissions are attempted in that session; and any non-401 failure only
clears the in-flight flags, leaving every other part of the session state
unchanged. -/
theorem useStudySession_fail401_logout :
    (∀ s s' : SessionState, step Op.submitFail401 s = some s' →
      s'.tokenCookie = none ∧ s'.user = none ∧ s'.mounted = false ∧
        s'.isSubmitting = false) ∧
    (∀ (ops : List Op) (s s' : SessionState), s.mounted = false →
      runOps ops s = some s' → s'.posts = s.posts) ∧
    (∀ s s' : SessionState, step Op.submitFailOther s = some s' →
      s' = { s with isSubmitting := false, inFlight := none }) := by
  refine ⟨?_, ?_, ?_⟩
  · intro s s' hstep
    simp only [step] at hstep
    split at hstep
    · cases hstep
      refine ⟨?_, ?_, fail401_mounted s, rfl⟩
      · unfold submitResolveFail401; dsimp only
        split <;> simp [logout]
      · unfold submitResolveFail401; dsimp only
        split <;> simp [logout]
    · exact Option.noConfusion hstep
  · intro ops s s' hm hrun
    exact (runOps_unmounted ops s s' hm hrun).1
  · intro s s' hstep
    simp only [step] at hstep
    split at hstep
    · cases hstep; rfl
    · exact Option.noConfusion hstep

/-- C6 witness: the 401 resolution of the in-flight state `c6Mid`, a
subsequent transition issuing no POST, and the non-401 resolution of the
same state. -/
theorem useStudySession_fail401_logout_witness :
    (c6End.tokenCookie = none ∧ c6End.user = none ∧ c6End.mounted = false ∧
      c6End.isSubmitting = false) ∧
    c6After.posts = c6End.posts ∧
    c6Other = { c6Mid with isSubmitting := false, inFlight := none } :=
  ⟨useStudySession_fail401_logout.1 c6Mid c6End rfl,
   useStudySession_fail401_logout.2.1 [Op.tick 5] c6End c6After (by decide) rfl,
   useStudySession_fail401_logout.2.2 c6Mid c6Other rfl⟩

/-- C7 (amended): when the card fetch returns zero cards, no card is
rendered — the `card` computed is `null` — but `sessionFinished` stays
false: the `watch(card)` callback is not immediate, so it never fires for
an initially-null card, and `finishSession` with zero cards reviewed would
navigate home without setting the flag anyway. -/
theorem useStudySession_zero_cards :
    ∀ (mode0 : Mode) (user0 tok0 : Option String),
      card (initState [] mode0 user0 tok0) = none ∧
      (initState [] mode0 user0 tok0).sessionFinished = false := by
  intro mode0 user0 tok0
  constructor
  · unfold card initState watchCardsBody
    dsimp only
    split <;> (try split) <;> simp
  · unfold initState
    simp

/-- C7 counterexample: for a logged-in `due` session whose fetch returned
zero cards, the claim says `sessionFinished` is true immediately; in fact
it is false (while indeed no card is rendered). -/
theorem useStudySession_zero_cards_counterexample :
    (initState [] Mode.due (some "u") (some "t")).sessionFinished = false ∧
    card (initState [] Mode.due (some "u") (some "t")) = none := by
  exact ⟨rfl, rfl⟩

/-- C8 (confirmed): `qualityMap` maps again ↦ 1, good ↦ 3, easy ↦ 5, and
`recordResponse` issues exactly one review POST for the current card whose
body carries that quality value. -/
theorem useStudySession_quality_protocol :
    qualityMap Grade.again = 1 ∧ qualityMap Grade.good = 3 ∧
    qualityMap Grade.easy = 5 ∧
    (∀ (g : Grade) (s : SessionState) (c : StudyCard),
      card s = some c → s.isSubmitting = false →
      (recordResponse g s).posts = s.posts ++ [⟨c.id, qualityMap g⟩]) := by
  refine ⟨rfl, rfl, rfl, ?_⟩
  intro g s c hc hsub
  unfold recordResponse
  simp only [hc]
  rw [if_neg (by simp [hsub])]
  simp [track]

/-- C8 witness: grading the displayed card `7` of `c8Start` as easy
appends the POST `{ cardId := 7, quality := 5 }`. -/
theorem useStudySession_quality_protocol_witness :
    qualityMap Grade.again = 1 ∧
    (recordResponse Grade.easy c8Start).posts =
      c8Start.posts ++ [⟨7, qualityMap Grade.easy⟩] :=
  ⟨useStudySession_quality_protocol.1,
   useStudySession_quality_protocol.2.2.2 Grade.easy c8Start ⟨7, "", ""⟩
     rfl rfl⟩

/-- C9 (confirmed): a `flush` of a non-empty buffer removes and POSTs the
whole buffer; on success the queue keeps only the events tracked during
the await, and on failure the POSTed events are put back at the front of
the queue, ahead of the events tracked during the flush — no event is
lost, an at-least-once policy. -/
theorem useAnalytics_flush_at_least_once :
    ∀ (α : Type) (buffer during : List α), buffer ≠ [] →
      flush buffer during true = (during, buffer) ∧
      flush buffer during false = (buffer ++ during, buffer) := by
  intro α buffer during hne
  have hb : buffer.isEmpty = false := by
    cases buffer with
    | nil => exact absurd rfl hne
    | cons a l => rfl
  constructor <;> simp [flush, hb]

/-- C9 witness: a concrete two-event buffer with one event tracked during
the flush. -/
theorem useAnalytics_flush_at_least_once_witness :
    flush [1, 2] [3] true = ([3], [1, 2]) ∧
    flush [1, 2] [3] false = ([1, 2] ++ [3], [1, 2]) :=
  useAnalytics_flush_at_least_once Nat [1, 2] [3] (by decide)

/-- C10 (confirmed): the ratio-based new/reviewed breakdown is always a
well-formed split of `cardsReviewedInSession`: `newConceptsInSession` is a
natural number at most the session count (also when
`categoryNewCount + categoryDueCount = 0`), `reviewedConceptsInSession`
is non-negative and at most the session count, and the two sum to the
session count. -/
theorem useStudySession_concept_breakdown :
    ∀ categoryNewCount categoryDueCount cardsReviewedInSession : Nat,
      newConceptsInSession categoryNewCount categoryDueCount
          cardsReviewedInSession ≤ cardsReviewedInSession ∧
      (0 : Int) ≤ (newConceptsInSession categoryNewCount categoryDueCount
          cardsReviewedInSession : Int) ∧
      0 ≤ reviewedConceptsInSession categoryNewCount categoryDueCount
          cardsReviewedInSession ∧
      reviewedConceptsInSession categoryNewCount categoryDueCount
          cardsReviewedInSession ≤ (cardsReviewedInSession : Int) ∧
      (newConceptsInSession categoryNewCount categoryDueCount
          cardsReviewedInSession : Int) +
        reviewedConceptsInSession categoryNewCount categoryDueCount
          cardsReviewedInSession = (cardsReviewedInSession : Int) := by
  intro nc dc rs
  have hle : newConceptsInSession nc dc rs ≤ rs := by
    simp only [newConceptsInSession]
    split
    · omega
    · rename_i ht
      apply jsRound_le
      · exact Nat.mul_le_mul_left rs (Nat.le_add_right nc dc)
      · omega
  refine ⟨hle, by positivity, ?_, ?_, ?_⟩
  · unfold reviewedConceptsInSession; omega
  · unfold reviewedConceptsInSession; omega
  · unfold reviewedConceptsInSession; omega
